import Mathlib

/-!
# F&O Sentinel dashboard client (`web/frontend/static/js/app.js`)

A shallow embedding of the dashboard script and the properties proved about it.

Conventions of the embedding.

* A JavaScript string is a Lean `String`; the functions that look inside one work on
  its list of characters.  `jsLength` counts UTF-16 code units, which is what the
  script's `.length` reads.
* A JavaScript number is a `JNum`: `NaN`, an infinity, or the exact decimal value
  `(-1)^neg * mant * 10^exp` that the parsed text denotes.  The rounding of that value
  to a double is not part of the model.
* The module variables, the parts of the page the script touches, the browser timers,
  `localStorage`, the navigations and the outgoing requests form one `State`.  An
  `async` function is a function of the state and of the answers the server gives to
  the requests it makes, in the order it makes them; it runs as one transition.  The
  two requests of the page load are the exception: they leave in `domContentLoaded`
  and their replies are handled by `loadSettingsResume` and `pollStatusResume`.
* Elements the script dereferences without a guard are present in the page; the
  form controls that `populateSettingsUI` and `saveSettings` look up under an
  `if (el)` guard may be absent.
-/

namespace FnoSentinel

/-! ## Values -/

/-- A JavaScript number as the script meets it: the result of `parseFloat` or
`parseInt`, or a number of a server reply. -/
inductive JNum where
  | nan
  | inf (neg : Bool)
  | fin (neg : Bool) (mant : Nat) (exp : Int)
  deriving DecidableEq

/-- A JavaScript value held in a flat object: a property of a settings snapshot, of a
reply, or of a request body.  `obj` stands for a nested object or array, which the
script never looks into. -/
inductive JVal where
  | undefined
  | null
  | bool (b : Bool)
  | num (n : JNum)
  | str (s : String)
  | obj
  deriving DecidableEq

/-- A flat JavaScript object: its own properties in insertion order. -/
abbrev JObj := List (String × JVal)

/-- Property read `o[k]`: `undefined` when `o` has no such property. -/
def JObj.get (o : JObj) (k : String) : JVal :=
  match o.lookup k with
  | some v => v
  | none => .undefined

/-- Property write `o[k] = v`: overwrites in place, or appends a new property. -/
def JObj.set : JObj → String → JVal → JObj
  | [], k, v => [(k, v)]
  | (k', v') :: rest, k, v =>
    if k' = k then (k, v) :: rest else (k', v') :: JObj.set rest k v

/-- The property names of an object, in order. -/
def JObj.keys (o : JObj) : List String := o.map Prod.fst

/-- JavaScript truthiness (`ToBoolean`). -/
def JVal.truthy : JVal → Bool
  | .undefined => false
  | .null => false
  | .bool b => b
  | .num .nan => false
  | .num (.inf _) => true
  | .num (.fin _ m _) => m != 0
  | .str s => s != ""
  | .obj => true

/-- The operator `a || b`. -/
def JVal.or (a b : JVal) : JVal := if a.truthy then a else b

/-- What `JSON.stringify` writes for a property value: `NaN` and the infinities
become `null`; everything else is written as it is. -/
def jsonValue : JVal → JVal
  | .num .nan => .null
  | .num (.inf _) => .null
  | v => v

/-- The body `JSON.stringify` produces for a flat object, kept structured: properties
whose value is `undefined` are left out, non-finite numbers are written as `null`. -/
def jsonStringify (o : JObj) : JObj :=
  (o.filter fun kv => kv.2 != .undefined).map fun kv => (kv.1, jsonValue kv.2)

/-! ## Strings -/

/-- Whether `text` begins with `pat`. -/
def startsWithChars : List Char → List Char → Bool
  | [], _ => true
  | _ :: _, [] => false
  | p :: ps, c :: cs => p == c && startsWithChars ps cs

/-- Whether `pat` occurs in `text` as a contiguous run. -/
def includesChars (pat : List Char) : List Char → Bool
  | [] => startsWithChars pat []
  | c :: cs => startsWithChars pat (c :: cs) || includesChars pat cs

/-- The method `l.includes(pat)`. -/
def includes (l pat : String) : Bool := includesChars pat.data l.data

/-- The characters `String.prototype.trim` and the number parsers strip: the
ECMAScript `WhiteSpace` and `LineTerminator` code points. -/
def isJsWhitespace (c : Char) : Bool :=
  let n := c.toNat
  n == 0x09 || n == 0x0A || n == 0x0B || n == 0x0C || n == 0x0D || n == 0x20 ||
  n == 0xA0 || n == 0x1680 || (0x2000 ≤ n && n ≤ 0x200A) || n == 0x2028 ||
  n == 0x2029 || n == 0x202F || n == 0x205F || n == 0x3000 || n == 0xFEFF

/-- The method `s.trim()`. -/
def jsTrim (s : String) : String :=
  ⟨((s.data.dropWhile isJsWhitespace).reverse.dropWhile isJsWhitespace).reverse⟩

/-- The number of UTF-16 code units of a character list. -/
def utf16Units : List Char → Nat
  | [] => 0
  | c :: cs => (if c.toNat < 0x10000 then 1 else 2) + utf16Units cs

/-- The property `s.length`: the number of UTF-16 code units. -/
def jsLength (s : String) : Nat := utf16Units s.data

/-- The replacement of every occurrence of the character `c` by `by_`, as
`text.replace(/c/g, by_)` does for a one-character pattern. -/
def replaceAllChar (c : Char) (by_ : String) (text : String) : String :=
  ⟨text.data.flatMap fun x => if x = c then by_.data else [x]⟩

/-- The method `s.toLowerCase()` on the ASCII letters (the modes the backend sends are
`PAPER` and `LIVE`). -/
def toLowerCase (s : String) : String := ⟨s.data.map Char.toLower⟩

/-! ## Number parsing -/

/-- The value of a digit in the given radix, if the character is one. -/
def digitValue (radix : Nat) (c : Char) : Option Nat :=
  let n := c.toNat
  let d := if 48 ≤ n ∧ n ≤ 57 then some (n - 48)
    else if 97 ≤ n ∧ n ≤ 122 then some (n - 87)
    else if 65 ≤ n ∧ n ≤ 90 then some (n - 55)
    else none
  match d with
  | some v => if v < radix then some v else none
  | none => none

/-- The longest run of digits at the head of the text, and the rest. -/
def takeDigits (radix : Nat) : List Char → List Nat × List Char
  | [] => ([], [])
  | c :: cs =>
    match digitValue radix c with
    | some d => let r := takeDigits radix cs; (d :: r.1, r.2)
    | none => ([], c :: cs)

/-- The number a digit list writes in the given radix. -/
def digitsToNat (radix : Nat) (ds : List Nat) : Nat :=
  ds.foldl (fun acc d => acc * radix + d) 0

/-- An optional sign at the head of the text: whether it is a minus, and the rest. -/
def takeSign : List Char → Bool × List Char
  | '-' :: r => (true, r)
  | '+' :: r => (false, r)
  | t => (false, t)

/-- The exponent part of a decimal literal (`e` or `E`, an optional sign, digits), read
only when at least one digit follows; `0` otherwise. -/
def takeExponent : List Char → Int
  | c :: r =>
    if c = 'e' ∨ c = 'E' then
      let sr := takeSign r
      let ds := (takeDigits 10 sr.2).1
      if ds = [] then 0
      else if sr.1 then - (digitsToNat 10 ds : Int) else (digitsToNat 10 ds : Int)
    else 0
  | [] => 0

/-- The global `parseFloat(v)`: leading white space is skipped, the longest leading
decimal literal is read, and `NaN` is returned when there is none. -/
def parseFloat (v : String) : JNum :=
  let sr := takeSign (v.data.dropWhile isJsWhitespace)
  if startsWithChars "Infinity".data sr.2 then .inf sr.1
  else
    let ip := takeDigits 10 sr.2
    let fp := match ip.2 with
      | '.' :: r => takeDigits 10 r
      | r => ([], r)
    if ip.1 = [] ∧ fp.1 = [] then .nan
    else .fin sr.1 (digitsToNat 10 (ip.1 ++ fp.1)) (takeExponent fp.2 - fp.1.length)

/-- The global `parseInt(v)` with no radix argument: leading white space is skipped,
a sign is read, `0x` or `0X` selects radix 16, the longest leading run of digits is
read, and `NaN` is returned when there is none. -/
def parseInt (v : String) : JNum :=
  let sr := takeSign (v.data.dropWhile isJsWhitespace)
  let hex := startsWithChars "0x".data sr.2 || startsWithChars "0X".data sr.2
  let radix := if hex then 16 else 10
  let ds := (takeDigits radix (if hex then sr.2.drop 2 else sr.2)).1
  if ds = [] then .nan else .fin sr.1 (digitsToNat radix ds) 0

/-! ## Log rendering helpers -/

/-- The function `escapeHtml(text)`. -/
def escapeHtml (text : String) : String :=
  replaceAllChar '>' "&gt;" (replaceAllChar '<' "&lt;" (replaceAllChar '&' "&amp;" text))

/-- The class computed for one log line inside `updateStatusUI`. -/
def logClass (l : String) : String :=
  let cls := "log-entry"
  if includes l "❌" || includes l "FATAL" || includes l "ERROR" then cls ++ " log-error"
  else if includes l "⚠️" || includes l "WARNING" then cls ++ " log-warning"
  else if includes l "✅" || includes l "ENTRY" || includes l "EXIT" then cls ++ " log-success"
  else cls

/-- The markup of one log line: the template literal of the `map` callback. -/
def renderLogLine (l : String) : String :=
  "<div class=\"" ++ logClass l ++ "\">" ++ escapeHtml l ++ "</div>"

/-- The value assigned to `term.innerHTML`: `status.logs.map(...).join('')`. -/
def renderLogs (logs : List String) : String :=
  logs.foldl (fun acc l => acc ++ renderLogLine l) ""

/-! ## Replies of the server -/

/-- The body of a `/api/bot/status` reply, at the types the dashboard reads it:
`uptime`, `trading_mode` and `logs` may be missing. -/
structure BotStatus where
  running : Bool
  uptime : Option String
  trading_mode : Option String
  otp_pending : Bool
  logs : Option (List String)

/-- The body of a `/api/settings/` POST reply: the settings snapshot it echoes, when
`result.settings` is there. -/
structure SaveReply where
  settings : Option JObj

/-- How one `fetch` ends.  `failed`: the promise rejects.  `http status body`: a
response with that status arrives; `body` is `none` when `resp.json()` rejects or
yields a falsy value, which every caller treats like `null`. -/
inductive FetchOutcome (α : Type) where
  | failed
  | http (status : Nat) (body : Option α)

/-! ## State -/

/-- The callbacks the script hands to `showConfirm`. -/
inductive Callback where
  | stopBot
  | setLive
  deriving DecidableEq

/-- One call of `fetch`: the address, the method, the `Authorization` header and the
body written by `JSON.stringify`, if any. -/
structure Request where
  url : String
  method : String
  authorization : String
  body : Option JObj
  deriving DecidableEq

/-- One banner created by `showNotif`. -/
structure Notif where
  message : JVal
  type : String
  deriving DecidableEq

/-- The parts of the page the script reads or writes. -/
structure Dom where
  userChip : String
  ctaClass : String
  ctaLabel : String
  statStatus : String
  statStatusColor : String
  statUptime : String
  uptimeDisplay : String
  modeBadgeClass : String
  modeText : String
  otpAlertHidden : Bool
  terminalHTML : String
  inputs : String → Option String
  checks : String → Option Bool
  modePaperClass : String
  modeLiveClass : String
  connStatusHTML : JVal
  connStatusColor : String
  saveBtnDisabled : Bool
  saveTextHidden : Bool
  saveSpinnerHidden : Bool
  testConnBtnText : String
  testConnBtnDisabled : Bool
  initiateLoginBtnText : String
  initiateLoginBtnDisabled : Bool
  otpModalHidden : Bool
  otpInput : String
  confirmIcon : String
  confirmTitle : String
  confirmBody : String
  confirmModalHidden : Bool
  sectionBodyOpen : String → Bool
  sectionArrowOpen : String → Bool
  banners : List Notif

/-- The module variables, the browser facilities the script uses and the page.
`timers` are the interval timers still running (each one calls `pollStatus`),
`navigations` the assignments to `window.location.href`, `requests` the calls of
`fetch`, oldest first.  The console is not part of the state. -/
structure State where
  POLL_INTERVAL : Option Nat
  currentSettings : JObj
  pendingConfirmCallback : Option Callback
  timers : List Nat
  nextTimer : Nat
  localStorage : List (String × String)
  navigations : List String
  requests : List Request
  dom : Dom

/-! ## Session and API client -/

/-- The call `clearInterval(h)`; a `null` handle cancels nothing. -/
def clearInterval (s : State) (h : Option Nat) : State :=
  match h with
  | some t => { s with timers := s.timers.filter fun x => x != t }
  | none => s

/-- The call `setInterval(pollStatus, 3000)`: the state with the new timer, and its
handle. -/
def setInterval (s : State) : State × Nat :=
  ({ s with timers := s.timers ++ [s.nextTimer], nextTimer := s.nextTimer + 1 }, s.nextTimer)

/-- The function `logout()`. -/
def logout (s : State) : State :=
  let s1 := clearInterval s s.POLL_INTERVAL
  let s2 := { s1 with localStorage := [] }
  { s2 with navigations := s2.navigations ++ ["/login"] }

/-- The `Authorization` header built by `authHeaders()`. -/
def authHeaders (s : State) : String :=
  "Bearer " ++ (match s.localStorage.lookup "fno_token" with
    | some t => t
    | none => "null")

/-- The first half of `apiCall`: the options are built and `fetch` is called. -/
def sendRequest (s : State) (url method : String) (body : Option JObj) : State :=
  { s with requests := s.requests ++
      [{ url := url, method := method, authorization := authHeaders s,
         body := body.map jsonStringify }] }

/-- The second half of `apiCall`: what it does with the outcome of the `fetch`, and
what it returns (`none` is `null`). -/
def receive {α : Type} (s : State) (out : FetchOutcome α) : State × Option α :=
  match out with
  | .failed => (s, none)
  | .http status body => if status = 401 then (logout s, none) else (s, body)

/-- The function `apiCall(url, method, body)`. -/
def apiCall {α : Type} (s : State) (url method : String) (body : Option JObj)
    (out : FetchOutcome α) : State × Option α :=
  receive (sendRequest s url method body) out

/-! ## Notifications and the confirm dialog -/

/-- The function `showNotif(message, type)`: `banners` lists the banners created,
oldest first; their removal after four seconds is left out. -/
def showNotif (s : State) (message : JVal) (type : String) : State :=
  { s with dom := { s.dom with banners := s.dom.banners ++ [{ message := message, type := type }] } }

/-- The function `showConfirm(icon, title, body, callback)`. -/
def showConfirm (s : State) (icon title body : String) (callback : Callback) : State :=
  { s with
    pendingConfirmCallback := some callback
    dom := { s.dom with confirmIcon := icon, confirmTitle := title, confirmBody := body,
                        confirmModalHidden := false } }

/-- The function `hideConfirm()`. -/
def hideConfirm (s : State) : State :=
  { s with pendingConfirmCallback := none, dom := { s.dom with confirmModalHidden := true } }

/-! ## Polling -/

/-- The function `updateStatusUI(status)`.  The scroll position of the terminal is
layout and is left out. -/
def updateStatusUI (s : State) (status : BotStatus) : State :=
  let running := status.running
  let mode := match status.trading_mode with
    | some m => if m ≠ "" then m else "PAPER"
    | none => "PAPER"
  let d := s.dom
  let d := { d with
    ctaClass := "cta-btn " ++ (if running then "stop" else "start")
    ctaLabel := if running then "STOP BOT" else "START BOT"
    statStatus := if running then "RUNNING" else "STOPPED"
    statStatusColor := if running then "var(--accent-green)" else "var(--accent-red)"
    statUptime := "Uptime: " ++ (match status.uptime with
      | some u => if u ≠ "" then u else "0s"
      | none => "0s")
    uptimeDisplay := if running then "Running for " ++ (match status.uptime with
      | some u => u
      | none => "undefined") else ""
    modeBadgeClass := "mode-badge " ++ toLowerCase mode
    modeText := mode
    otpAlertHidden := !status.otp_pending }
  let d := match status.logs with
    | some logs => if logs.length > 0 then { d with terminalHTML := renderLogs logs } else d
    | none => d
  { s with dom := d }

/-- The part of `pollStatus()` after the `await`. -/
def pollStatusResume (s : State) (out : FetchOutcome BotStatus) : State :=
  match receive s out with
  | (s1, none) => s1
  | (s1, some status) => updateStatusUI s1 status

/-- The function `pollStatus()`. -/
def pollStatus (s : State) (out : FetchOutcome BotStatus) : State :=
  pollStatusResume (sendRequest s "/api/bot/status" "GET" none) out

/-! ## Settings form -/

/-- The function `setModeUI(mode)`. -/
def setModeUI (s : State) (mode : JVal) : State :=
  { s with
    dom := { s.dom with
      modePaperClass := "radio-opt" ++ (if mode = .str "PAPER" then " active-paper" else "")
      modeLiveClass := "radio-opt" ++ (if mode = .str "LIVE" then " active-live" else "") }
    currentSettings := s.currentSettings.set "trading_mode" mode }

/-- The function `setMode(mode)`. -/
def setMode (s : State) (mode : String) : State :=
  if mode = "LIVE" ∧ s.currentSettings.get "trading_mode" ≠ .str "LIVE" then
    showConfirm s "⚡" "Switch to LIVE mode?"
      "Real orders will be placed with mStock using your account. This action trades with real money."
      .setLive
  else
    setModeUI { s with currentSettings := s.currentSettings.set "trading_mode" (.str mode) }
      (.str mode)

/-- The two helpers of `populateSettingsUI`. -/
inductive Widget where
  | set
  | check
  deriving DecidableEq

/-- The calls of `set` and `check` in `populateSettingsUI`, in order: the helper, the
element id and the settings property it shows. -/
def populateRows : List (Widget × String × String) :=
  [ (.set, "s-capital", "initial_capital"),
    (.set, "s-loss-limit", "daily_loss_limit_pct"),
    (.set, "s-profit-cap", "daily_profit_cap"),
    (.set, "s-rsi-min", "rsi_min"),
    (.set, "s-rsi-max", "rsi_max"),
    (.set, "s-adx", "adx_min_daily"),
    (.set, "s-vix", "vix_min_threshold"),
    (.set, "s-target", "profit_target_amount"),
    (.set, "s-strike", "strike_depth"),
    (.set, "s-open", "market_open_time"),
    (.set, "s-cutoff", "entry_cutoff_time"),
    (.set, "s-nifty-sl-low", "nifty_sl_low"),
    (.set, "s-nifty-sl-mid", "nifty_sl_mid"),
    (.set, "s-nifty-sl-high", "nifty_sl_high"),
    (.set, "s-bn-sl-low", "banknifty_sl_low"),
    (.set, "s-bn-sl-mid", "banknifty_sl_mid"),
    (.set, "s-bn-sl-high", "banknifty_sl_high"),
    (.set, "s-fn-sl-low", "finnifty_sl_low"),
    (.set, "s-fn-sl-mid", "finnifty_sl_mid"),
    (.set, "s-fn-sl-high", "finnifty_sl_high"),
    (.set, "s-sx-sl-low", "sensex_sl_low"),
    (.set, "s-sx-sl-mid", "sensex_sl_mid"),
    (.set, "s-sx-sl-high", "sensex_sl_high"),
    (.set, "s-nifty-lots", "nifty_lots"),
    (.set, "s-bn-lots", "banknifty_lots"),
    (.set, "s-fn-lots", "finnifty_lots"),
    (.set, "s-sx-lots", "sensex_lots"),
    (.check, "s-trade-nifty", "trade_nifty"),
    (.check, "s-trade-bn", "trade_banknifty"),
    (.check, "s-trade-fn", "trade_finnifty"),
    (.check, "s-trade-sx", "trade_sensex"),
    (.check, "s-email-on", "email_enabled"),
    (.set, "s-email-addr", "email_address"),
    (.set, "s-smtp-host", "email_smtp_host"),
    (.set, "s-smtp-port", "email_smtp_port"),
    (.check, "s-tg-on", "telegram_enabled"),
    (.set, "s-tg-chatid", "telegram_chat_id") ]

/-- One call of `set(id, val)` or `check(id, val)`.  `coerce id val` is the string the
element `id` holds after the assignment `el.value = val`; the conversion is the
browser's and is left open. -/
def applyRow (coerce : String → JVal → String) (snap : JObj) (d : Dom)
    (row : Widget × String × String) : Dom :=
  let val := snap.get row.2.2
  match row.1 with
  | .set =>
    match d.inputs row.2.1 with
    | some _ =>
      if val ≠ .undefined ∧ val ≠ .null then
        { d with inputs := fun i => if i = row.2.1 then some (coerce row.2.1 val) else d.inputs i }
      else d
    | none => d
  | .check =>
    match d.checks row.2.1 with
    | some _ => { d with checks := fun i => if i = row.2.1 then some val.truthy else d.checks i }
    | none => d

/-- The markup `populateSettingsUI` writes into the credential badge. -/
def credentialBadge (snap : JObj) : String :=
  if (snap.get "mstock_api_key_set").truthy ∧ (snap.get "mstock_client_code_set").truthy then
    "<span style=\"color:var(--accent-green)\">✅ mStock credentials saved</span>" ++
      (if (snap.get "mstock_access_token_set").truthy then
        " &nbsp;·&nbsp; <span style=\"color:var(--accent-green)\">Token active</span>"
      else
        " &nbsp;·&nbsp; <span style=\"color:var(--accent-orange)\">⚠️ Not authenticated — click Initiate Login</span>")
  else "<span style=\"color:var(--accent-orange)\">⚠️ No mStock credentials yet</span>"

/-- The function `populateSettingsUI(s)`, for the snapshot `snap`. -/
def populateSettingsUI (coerce : String → JVal → String) (s : State) (snap : JObj) : State :=
  let s1 := { s with dom := populateRows.foldl (applyRow coerce snap) s.dom }
  let s2 := setModeUI s1 ((snap.get "trading_mode").or (.str "PAPER"))
  { s2 with dom := { s2.dom with connStatusHTML := .str (credentialBadge snap) } }

/-- The part of `loadSettings()` after the `await`.  The assignment
`currentSettings = s` and the argument of `populateSettingsUI` are one object, so the
`trading_mode` that `setModeUI` writes is read back through either name. -/
def loadSettingsResume (coerce : String → JVal → String) (s : State)
    (out : FetchOutcome JObj) : State :=
  match receive s out with
  | (s1, none) => s1
  | (s1, some snap) => populateSettingsUI coerce { s1 with currentSettings := snap } snap

/-- The function `loadSettings()`. -/
def loadSettings (coerce : String → JVal → String) (s : State)
    (out : FetchOutcome JObj) : State :=
  loadSettingsResume coerce (sendRequest s "/api/settings/" "GET" none) out

/-- Where a property of the settings payload comes from: the right-hand sides of the
object literal in `saveSettings`. -/
inductive Source where
  | currentMode
  | getNum (id : String)
  | getInt (id : String)
  | get (id : String)
  | getBool (id : String)
  | getOrUndefined (id : String)
  deriving DecidableEq

/-- The object literal `payload` of `saveSettings`, property by property. -/
def payloadRows : List (String × Source) :=
  [ ("trading_mode", .currentMode),
    ("initial_capital", .getNum "s-capital"),
    ("daily_loss_limit_pct", .getNum "s-loss-limit"),
    ("daily_profit_cap", .getNum "s-profit-cap"),
    ("rsi_min", .getNum "s-rsi-min"),
    ("rsi_max", .getNum "s-rsi-max"),
    ("adx_min_daily", .getNum "s-adx"),
    ("vix_min_threshold", .getNum "s-vix"),
    ("profit_target_amount", .getNum "s-target"),
    ("strike_depth", .getInt "s-strike"),
    ("market_open_time", .get "s-open"),
    ("entry_cutoff_time", .get "s-cutoff"),
    ("nifty_sl_low", .getNum "s-nifty-sl-low"),
    ("nifty_sl_mid", .getNum "s-nifty-sl-mid"),
    ("nifty_sl_high", .getNum "s-nifty-sl-high"),
    ("banknifty_sl_low", .getNum "s-bn-sl-low"),
    ("banknifty_sl_mid", .getNum "s-bn-sl-mid"),
    ("banknifty_sl_high", .getNum "s-bn-sl-high"),
    ("finnifty_sl_low", .getNum "s-fn-sl-low"),
    ("finnifty_sl_mid", .getNum "s-fn-sl-mid"),
    ("finnifty_sl_high", .getNum "s-fn-sl-high"),
    ("sensex_sl_low", .getNum "s-sx-sl-low"),
    ("sensex_sl_mid", .getNum "s-sx-sl-mid"),
    ("sensex_sl_high", .getNum "s-sx-sl-high"),
    ("nifty_lots", .getInt "s-nifty-lots"),
    ("banknifty_lots", .getInt "s-bn-lots"),
    ("finnifty_lots", .getInt "s-fn-lots"),
    ("sensex_lots", .getInt "s-sx-lots"),
    ("trade_nifty", .getBool "s-trade-nifty"),
    ("trade_banknifty", .getBool "s-trade-bn"),
    ("trade_finnifty", .getBool "s-trade-fn"),
    ("trade_sensex", .getBool "s-trade-sx"),
    ("email_enabled", .getBool "s-email-on"),
    ("email_address", .get "s-email-addr"),
    ("email_smtp_host", .get "s-smtp-host"),
    ("email_smtp_port", .getInt "s-smtp-port"),
    ("email_smtp_user", .getOrUndefined "s-smtp-user"),
    ("email_smtp_pass", .getOrUndefined "s-smtp-pass"),
    ("telegram_enabled", .getBool "s-tg-on"),
    ("telegram_bot_token", .getOrUndefined "s-tg-token"),
    ("telegram_chat_id", .get "s-tg-chatid"),
    ("mstock_api_key", .getOrUndefined "s-api-key"),
    ("mstock_api_secret", .getOrUndefined "s-api-secret"),
    ("mstock_client_code", .getOrUndefined "s-client-code"),
    ("mstock_password", .getOrUndefined "s-password") ]

/-- The helper `get(id)` of `saveSettings`: `el ? el.value || null : null`. -/
def get (d : Dom) (id : String) : JVal :=
  match d.inputs id with
  | some v => (JVal.str v).or .null
  | none => .null

/-- The helper `getNum(id)` of `saveSettings`: `v ? parseFloat(v) : null`. -/
def getNum (d : Dom) (id : String) : JVal :=
  match get d id with
  | .str v => if (JVal.str v).truthy then .num (parseFloat v) else .null
  | _ => .null

/-- The helper `getInt(id)` of `saveSettings`: `v ? parseInt(v) : null`. -/
def getInt (d : Dom) (id : String) : JVal :=
  match get d id with
  | .str v => if (JVal.str v).truthy then .num (parseInt v) else .null
  | _ => .null

/-- The helper `getBool(id)` of `saveSettings`: `el ? el.checked : null`. -/
def getBool (d : Dom) (id : String) : JVal :=
  match d.checks id with
  | some b => .bool b
  | none => .null

/-- The value of one right-hand side of the object literal. -/
def Source.eval (s : State) : Source → JVal
  | .currentMode => s.currentSettings.get "trading_mode"
  | .getNum id => FnoSentinel.getNum s.dom id
  | .getInt id => FnoSentinel.getInt s.dom id
  | .get id => FnoSentinel.get s.dom id
  | .getBool id => FnoSentinel.getBool s.dom id
  | .getOrUndefined id => (FnoSentinel.get s.dom id).or .undefined

/-- The object `payload` of `saveSettings` once the properties that are `null` or
`undefined` have been deleted: the argument of the settings POST. -/
def settingsPayload (s : State) : JObj :=
  (payloadRows.map fun row => (row.1, row.2.eval s)).filter
    fun kv => !(kv.2 = .null ∨ kv.2 = .undefined)

/-- The function `saveSettings()`. -/
def saveSettings (coerce : String → JVal → String) (s : State)
    (out : FetchOutcome SaveReply) : State :=
  let s1 := { s with dom := { s.dom with saveBtnDisabled := true, saveTextHidden := true,
                                          saveSpinnerHidden := false } }
  let payload := settingsPayload s1
  match apiCall s1 "/api/settings/" "POST" (some payload) out with
  | (s2, result) =>
    let s3 := { s2 with dom := { s2.dom with saveBtnDisabled := false, saveTextHidden := false,
                                              saveSpinnerHidden := true } }
    match result with
    | some r =>
      let s4 := showNotif s3 (.str "✅ Settings saved successfully!") "success"
      match r.settings with
      | some snap => populateSettingsUI coerce { s4 with currentSettings := snap } snap
      | none => s4
    | none => showNotif s3 (.str "❌ Failed to save settings.") "error"

/-- The function `testConnection()`. -/
def testConnection (s : State) (out : FetchOutcome JObj) : State :=
  let s1 := { s with dom := { s.dom with testConnBtnText := "⏳ Testing...",
                                          testConnBtnDisabled := true } }
  match apiCall s1 "/api/settings/test-connection" "POST" none out with
  | (s2, r) =>
    let s3 := { s2 with dom := { s2.dom with testConnBtnText := "🔌 Test Connection",
                                              testConnBtnDisabled := false } }
    match r with
    | some r =>
      let connected := r.get "status" = .str "connected"
      let s4 := { s3 with dom := { s3.dom with
        connStatusHTML := r.get "message"
        connStatusColor := if connected then "var(--accent-green)" else "var(--accent-orange)" } }
      showNotif s4 (r.get "message") (if connected then "success" else "error")
    | none => s3

/-! ## OTP -/

/-- The function `showOtpModal()`; the focus is left out. -/
def showOtpModal (s : State) : State :=
  { s with dom := { s.dom with otpModalHidden := false } }

/-- The function `hideOtpModal()`. -/
def hideOtpModal (s : State) : State :=
  { s with dom := { s.dom with otpModalHidden := true } }

/-- The function `initiateLogin()`. -/
def initiateLogin (s : State) (out : FetchOutcome JObj) : State :=
  let s1 := { s with dom := { s.dom with initiateLoginBtnText := "⏳ Sending OTP...",
                                          initiateLoginBtnDisabled := true } }
  match apiCall s1 "/api/bot/initiate-login" "POST" none out with
  | (s2, r) =>
    let s3 := { s2 with dom := { s2.dom with
      initiateLoginBtnText := "📱 Initiate mStock Login (OTP)"
      initiateLoginBtnDisabled := false } }
    match r with
    | some r =>
      let sent := r.get "status" = .str "otp_sent"
      let s4 := showNotif s3 (r.get "message") (if sent then "success" else "error")
      if sent then showOtpModal s4 else s4
    | none => s3

/-- The function `submitOtp()`. -/
def submitOtp (coerce : String → JVal → String) (s : State)
    (out : FetchOutcome JObj) (settingsOut : FetchOutcome JObj) : State :=
  let otp := jsTrim s.dom.otpInput
  if otp = "" ∨ jsLength otp < 4 then
    showNotif s (.str "Please enter a valid OTP") "error"
  else
    match apiCall s "/api/bot/otp" "POST" (some [("otp", .str otp)]) out with
    | (s1, r) =>
      let s2 := hideOtpModal s1
      let s3 := match r with
        | some r => showNotif s2 (r.get "message")
            (if r.get "status" = .str "authenticated" then "success" else "error")
        | none => s2
      loadSettings coerce s3 settingsOut

/-! ## Bot control -/

/-- The `async` callback `handleBotToggle` hands to `showConfirm`, from the point where
its `apiCall` has received the outcome of the `fetch`. -/
def stopBotResume (s : State) (out : FetchOutcome JObj)
    (statusOut : FetchOutcome BotStatus) : State :=
  match receive s out with
  | (s1, r) =>
    let s2 := match r with
      | some r => showNotif s1 ((r.get "message").or (.str "Bot stopping...")) "success"
      | none => s1
    pollStatus s2 statusOut

/-- The function `handleBotToggle()`. -/
def handleBotToggle (s : State) (out : FetchOutcome JObj)
    (statusOut : FetchOutcome BotStatus) : State :=
  let running := s.dom.ctaLabel = "STOP BOT"
  if running then
    showConfirm s "🛑" "Stop the Bot?"
      "All monitoring will pause. Active positions will still be tracked when restarted."
      .stopBot
  else
    match apiCall s "/api/bot/start" "POST" none out with
    | (s1, r) =>
      let s2 := match r with
        | some r =>
          let s1a := if r.get "status" = .str "needs_otp" then
              { s1 with dom := { s1.dom with otpAlertHidden := false } }
            else s1
          showNotif s1a ((r.get "message").or (.str "Bot started!"))
            (if r.get "status" = .str "error" then "error" else "success")
        | none => s1
      pollStatus s2 statusOut

/-- The function `confirmAction()`.  A pending `stopBot` callback runs up to its
`await` (the request leaves), `hideConfirm()` runs, and the callback goes on when the
reply is there; a pending `setLive` callback runs to its end before `hideConfirm()`. -/
def confirmAction (s : State) (out : FetchOutcome JObj)
    (statusOut : FetchOutcome BotStatus) : State :=
  match s.pendingConfirmCallback with
  | some .stopBot =>
    stopBotResume (hideConfirm (sendRequest s "/api/bot/stop" "POST" none)) out statusOut
  | some .setLive =>
    hideConfirm (setModeUI
      { s with currentSettings := s.currentSettings.set "trading_mode" (.str "LIVE") }
      (.str "LIVE"))
  | none => hideConfirm s

/-! ## Collapsible sections, page load and the events of the page -/

/-- The function `toggleSection(name)`. -/
def toggleSection (s : State) (name : String) : State :=
  { s with dom := { s.dom with
    sectionBodyOpen := fun n => if n = name then !s.dom.sectionBodyOpen n
      else s.dom.sectionBodyOpen n
    sectionArrowOpen := fun n => if n = name then !s.dom.sectionArrowOpen n
      else s.dom.sectionArrowOpen n } }

/-- The `DOMContentLoaded` listener, up to its end: the two requests leave and the
interval starts; the replies are handled later by `loadSettingsResume` and
`pollStatusResume`. -/
def domContentLoaded (s : State) : State :=
  match s.localStorage.lookup "fno_token" with
  | none => { s with navigations := s.navigations ++ ["/login"] }
  | some token =>
    if token = "" then { s with navigations := s.navigations ++ ["/login"] }
    else
      let user := match s.localStorage.lookup "fno_user" with
        | some u => if u ≠ "" then u else "Trader"
        | none => "Trader"
      let s1 := { s with dom := { s.dom with userChip := user } }
      let s2 := sendRequest s1 "/api/settings/" "GET" none
      let s3 := sendRequest s2 "/api/bot/status" "GET" none
      let r := setInterval s3
      { r.1 with POLL_INTERVAL := some r.2 }

/-- One event of the loaded page: an interval timer that is still running fires, a
reply to a request of the page load arrives, or the user triggers a handler or edits a
control.  The outcomes of the requests a handler makes are arbitrary. -/
inductive Step (coerce : String → JVal → String) : State → State → Prop where
  | tick (s : State) (h : Nat) (out : FetchOutcome BotStatus) (running : h ∈ s.timers) :
      Step coerce s (pollStatus s out)
  | statusReply (s : State) (out : FetchOutcome BotStatus) :
      Step coerce s (pollStatusResume s out)
  | settingsReply (s : State) (out : FetchOutcome JObj) :
      Step coerce s (loadSettingsResume coerce s out)
  | logout (s : State) : Step coerce s (logout s)
  | handleBotToggle (s : State) (out : FetchOutcome JObj) (statusOut : FetchOutcome BotStatus) :
      Step coerce s (handleBotToggle s out statusOut)
  | confirmAction (s : State) (out : FetchOutcome JObj) (statusOut : FetchOutcome BotStatus) :
      Step coerce s (confirmAction s out statusOut)
  | hideConfirm (s : State) : Step coerce s (hideConfirm s)
  | setMode (s : State) (mode : String) : Step coerce s (setMode s mode)
  | saveSettings (s : State) (out : FetchOutcome SaveReply) :
      Step coerce s (saveSettings coerce s out)
  | testConnection (s : State) (out : FetchOutcome JObj) : Step coerce s (testConnection s out)
  | initiateLogin (s : State) (out : FetchOutcome JObj) : Step coerce s (initiateLogin s out)
  | showOtpModal (s : State) : Step coerce s (showOtpModal s)
  | hideOtpModal (s : State) : Step coerce s (hideOtpModal s)
  | submitOtp (s : State) (out settingsOut : FetchOutcome JObj) :
      Step coerce s (submitOtp coerce s out settingsOut)
  | toggleSection (s : State) (name : String) : Step coerce s (toggleSection s name)
  | editInput (s : State) (id v : String) :
      Step coerce s { s with dom := { s.dom with
        inputs := fun i => if i = id then (s.dom.inputs i).map fun _ => v else s.dom.inputs i } }
  | editCheck (s : State) (id : String) (b : Bool) :
      Step coerce s { s with dom := { s.dom with
        checks := fun i => if i = id then (s.dom.checks i).map fun _ => b else s.dom.checks i } }
  | editOtp (s : State) (v : String) :
      Step coerce s { s with dom := { s.dom with otpInput := v } }

/-- The states the page can reach from `s` by events. -/
inductive Reachable (coerce : String → JVal → String) (s : State) : State → Prop where
  | refl : Reachable coerce s s
  | step (t u : State) (before : Reachable coerce s t) (now : Step coerce t u) :
      Reachable coerce s u


/-! ## Notions used to state the properties -/

/-- The text `pat` occurs in `l`. -/
def Contains (l pat : String) : Prop := ∃ a b : List Char, l.data = a ++ pat.data ++ b

/-- A log line carries one of the failure markers. -/
def HasErrorMarker (l : String) : Prop :=
  Contains l "❌" ∨ Contains l "FATAL" ∨ Contains l "ERROR"

/-- A log line carries one of the warning markers. -/
def HasWarningMarker (l : String) : Prop :=
  Contains l "⚠️" ∨ Contains l "WARNING"

/-- A log line carries one of the success markers. -/
def HasSuccessMarker (l : String) : Prop :=
  Contains l "✅" ∨ Contains l "ENTRY" ∨ Contains l "EXIT"

/-- The replacement of the three entities `&amp;`, `&lt;` and `&gt;` by `&`, `<` and
`>`, reading the text once from left to right. -/
def unescapeChars : List Char → List Char
  | [] => []
  | c :: r =>
    if c = '&' then
      match r with
      | 'a' :: 'm' :: 'p' :: ';' :: t => '&' :: unescapeChars t
      | 'l' :: 't' :: ';' :: t => '<' :: unescapeChars t
      | 'g' :: 't' :: ';' :: t => '>' :: unescapeChars t
      | t => '&' :: unescapeChars t
    else c :: unescapeChars r

/-- The inverse reading of `escapeHtml`: entities back to characters. -/
def unescapeHtml (s : String) : String := ⟨unescapeChars s.data⟩

/-- What `escapeHtml` writes for one character. -/
def escapeChar (c : Char) : List Char :=
  if c = '&' then "&amp;".data
  else if c = '<' then "&lt;".data
  else if c = '>' then "&gt;".data
  else [c]

/-- The text after an ampersand spells the rest of one of the three entities. -/
def EntityTail (b : List Char) : Prop :=
  ∃ t, b = "amp;".data ++ t ∨ b = "lt;".data ++ t ∨ b = "gt;".data ++ t

/-! ## A concrete page -/

/-- The ids of the text, number and secret inputs `saveSettings` reads. -/
def pageInputIds : List String :=
  payloadRows.filterMap fun row =>
    match row.2 with
    | .getNum id => some id
    | .getInt id => some id
    | .get id => some id
    | .getOrUndefined id => some id
    | _ => none

/-- The ids of the checkboxes `saveSettings` reads. -/
def pageCheckIds : List String :=
  payloadRows.filterMap fun row =>
    match row.2 with
    | .getBool id => some id
    | _ => none

/-- A page as served: every form control is there, the inputs are empty, the
checkboxes are unchecked, the dialogs are hidden. -/
def pageDom : Dom where
  userChip := ""
  ctaClass := "cta-btn start"
  ctaLabel := "START BOT"
  statStatus := "STOPPED"
  statStatusColor := ""
  statUptime := ""
  uptimeDisplay := ""
  modeBadgeClass := "mode-badge paper"
  modeText := "PAPER"
  otpAlertHidden := true
  terminalHTML := ""
  inputs := fun i => if i ∈ pageInputIds then some "" else none
  checks := fun i => if i ∈ pageCheckIds then some false else none
  modePaperClass := "radio-opt"
  modeLiveClass := "radio-opt"
  connStatusHTML := .str ""
  connStatusColor := ""
  saveBtnDisabled := false
  saveTextHidden := false
  saveSpinnerHidden := true
  testConnBtnText := "🔌 Test Connection"
  testConnBtnDisabled := false
  initiateLoginBtnText := "📱 Initiate mStock Login (OTP)"
  initiateLoginBtnDisabled := false
  otpModalHidden := true
  otpInput := ""
  confirmIcon := ""
  confirmTitle := ""
  confirmBody := ""
  confirmModalHidden := true
  sectionBodyOpen := fun _ => false
  sectionArrowOpen := fun _ => false
  banners := []

/-- The state when the script has been read and a session is stored: the module
variables hold their initial values. -/
def pageState : State where
  POLL_INTERVAL := none
  currentSettings := []
  pendingConfirmCallback := none
  timers := []
  nextTimer := 1
  localStorage := [("fno_token", "token-1"), ("fno_user", "arun")]
  navigations := []
  requests := []
  dom := pageDom

/-- The page with the text `v` typed into the input `id`. -/
def typed (s : State) (id v : String) : State :=
  { s with dom := { s.dom with
    inputs := fun i => if i = id then (s.dom.inputs i).map fun _ => v else s.dom.inputs i } }

/-- A string conversion for the concrete examples: strings as they are, booleans by
name. -/
def sampleCoerce (_id : String) : JVal → String
  | .str t => t
  | .bool true => "true"
  | .bool false => "false"
  | _ => ""

/-- The page with a three-character code, padded with blanks, in the OTP input. -/
def shortOtpState : State :=
  { pageState with dom := { pageDom with otpInput := " 123 ", otpModalHidden := false } }

/-- The page after a status poll that reports a running bot. -/
def runningState : State :=
  updateStatusUI pageState
    { running := true, uptime := some "5m", trading_mode := some "PAPER",
      otp_pending := false, logs := none }

/-- A reply of the stop endpoint that reports a failure. -/
def stopErrorReply : JObj := [("status", .str "error"), ("message", .str "Could not stop")]

/-- The seven write-only fields of the payload, each with the id of its input. -/
def secretFields : List (String × String) :=
  [ ("email_smtp_user", "s-smtp-user"), ("email_smtp_pass", "s-smtp-pass"),
    ("telegram_bot_token", "s-tg-token"), ("mstock_api_key", "s-api-key"),
    ("mstock_api_secret", "s-api-secret"), ("mstock_client_code", "s-client-code"),
    ("mstock_password", "s-password") ]

/-- The request `saveSettings` sends from the state `s`. -/
def settingsRequest (s : State) : Request :=
  { url := "/api/settings/", method := "POST", authorization := authHeaders s,
    body := some (jsonStringify (settingsPayload s)) }

/-- The page with a stored mode, a server-side API key on record, and nothing typed
into the password input. -/
def blankSecretState : State :=
  { pageState with
    currentSettings := [("trading_mode", .str "LIVE"), ("mstock_api_key_set", .bool true)] }

/-- The page in `PAPER` mode with `100000` typed into the initial-capital input and
everything else blank. -/
def capitalOnlyState : State :=
  typed { pageState with currentSettings := [("trading_mode", .str "PAPER")] }
    "s-capital" "100000"

/-- The page in `PAPER` mode with `abc` typed into the initial-capital input. -/
def unparsableCapitalState : State :=
  typed { pageState with currentSettings := [("trading_mode", .str "PAPER")] }
    "s-capital" "abc"

/-- What one call `set(id, snap[key])` leaves in an input that held `before`
(`none`: the element is missing). -/
def setResult (coerce : String → JVal → String) (snap : JObj) (id key : String)
    (before : Option String) : Option String :=
  match before with
  | some old =>
    if snap.get key = .undefined ∨ snap.get key = .null then some old
    else some (coerce id (snap.get key))
  | none => none

/-- The form `after` shows the snapshot `snap` over the form `before`: an input that
`populateSettingsUI` sets holds the snapshot's value when the snapshot has one and its
earlier content otherwise; a checkbox it sets holds the truthiness of the snapshot's
value; every other input and checkbox is as before. -/
def ShowsSnapshot (coerce : String → JVal → String) (before after : Dom) (snap : JObj) : Prop :=
  (∀ id key, (Widget.set, id, key) ∈ populateRows →
    after.inputs id = setResult coerce snap id key (before.inputs id)) ∧
  (∀ id key, (Widget.check, id, key) ∈ populateRows →
    after.checks id = (before.checks id).map fun _ => (snap.get key).truthy) ∧
  (∀ id, (∀ key, (Widget.set, id, key) ∉ populateRows) → after.inputs id = before.inputs id) ∧
  (∀ id, (∀ key, (Widget.check, id, key) ∉ populateRows) → after.checks id = before.checks id)

/-- The page with a secret typed into the API-key input and `123` typed into the
initial-capital input, neither saved. -/
def unsavedEditsState : State :=
  typed (typed pageState "s-api-key" "typed-secret") "s-capital" "123"

/-- A settings snapshot of the server: no secrets, the credential flags, a capital
that is `null`, a loss limit. -/
def sampleSnapshot : JObj :=
  [("trading_mode", .str "PAPER"), ("initial_capital", .null),
   ("daily_loss_limit_pct", .str "2.5"), ("trade_nifty", .bool true),
   ("mstock_api_key_set", .bool true)]

/-- From `s` to `u` no interval was started and `POLL_INTERVAL` was not reassigned:
the handle is the same and every timer running in `u` was running in `s`. -/
def Shrinks (s u : State) : Prop :=
  u.POLL_INTERVAL = s.POLL_INTERVAL ∧ ∀ t ∈ u.timers, t ∈ s.timers

/-- The only interval timers running are the one whose handle `POLL_INTERVAL` holds. -/
def PollerOnly (s : State) : Prop := ∀ t ∈ s.timers, s.POLL_INTERVAL = some t

/-! ## Substring search -/

theorem startsWithChars_iff (p t : List Char) :
    startsWithChars p t = true ↔ ∃ b, t = p ++ b := by
  induction p generalizing t with
  | nil => simp [startsWithChars]
  | cons x xs ih =>
    cases t with
    | nil => simp [startsWithChars]
    | cons c cs =>
      simp only [startsWithChars, Bool.and_eq_true, beq_iff_eq, ih, List.cons_append,
        List.cons.injEq]
      constructor
      · rintro ⟨rfl, b, rfl⟩; exact ⟨b, rfl, rfl⟩
      · rintro ⟨b, rfl, rfl⟩; exact ⟨rfl, b, rfl⟩

theorem includesChars_iff (p t : List Char) :
    includesChars p t = true ↔ ∃ a b, t = a ++ p ++ b := by
  induction t with
  | nil =>
    simp only [includesChars, startsWithChars_iff]
    constructor
    · rintro ⟨b, hb⟩; exact ⟨[], b, by simpa using hb⟩
    · rintro ⟨a, b, hab⟩
      have h1 : a ++ p ++ b = [] := hab.symm
      simp only [List.append_eq_nil] at h1
      exact ⟨[], by simp [h1.1.2]⟩
  | cons c cs ih =>
    simp only [includesChars, Bool.or_eq_true, startsWithChars_iff, ih]
    constructor
    · rintro (⟨b, hb⟩ | ⟨a, b, hab⟩)
      · exact ⟨[], b, by simpa using hb⟩
      · exact ⟨c :: a, b, by simp [hab]⟩
    · rintro ⟨a, b, hab⟩
      cases a with
      | nil => left; exact ⟨b, by simpa using hab⟩
      | cons x xs =>
        right
        simp only [List.cons_append, List.cons.injEq] at hab
        exact ⟨xs, b, hab.2⟩

theorem includes_iff (l pat : String) : includes l pat = true ↔ Contains l pat := by
  simp [includes, Contains, includesChars_iff]

theorem hasErrorMarker_iff (l : String) :
    HasErrorMarker l ↔ (includes l "❌" || includes l "FATAL" || includes l "ERROR") = true := by
  simp [HasErrorMarker, includes_iff, or_assoc]

theorem hasWarningMarker_iff (l : String) :
    HasWarningMarker l ↔ (includes l "⚠️" || includes l "WARNING") = true := by
  simp [HasWarningMarker, includes_iff]

theorem hasSuccessMarker_iff (l : String) :
    HasSuccessMarker l ↔ (includes l "✅" || includes l "ENTRY" || includes l "EXIT") = true := by
  simp [HasSuccessMarker, includes_iff, or_assoc]

theorem logClass_mem (l : String) :
    logClass l ∈ ["log-entry log-error", "log-entry log-warning", "log-entry log-success",
      "log-entry"] := by
  unfold logClass
  simp only
  split_ifs
  · exact List.mem_cons_self _ _
  · exact List.mem_cons_of_mem _ (List.mem_cons_self _ _)
  · exact List.mem_cons_of_mem _ (List.mem_cons_of_mem _ (List.mem_cons_self _ _))
  · exact List.mem_cons_of_mem _ (List.mem_cons_of_mem _ (List.mem_cons_of_mem _
      (List.mem_cons_self _ _)))

/-- C3: the class of a log line follows the precedence error, warning, success,
default: a line with a failure marker gets `log-entry log-error`; otherwise one with a
warning marker gets `log-entry log-warning`; otherwise one with a success marker gets
`log-entry log-success`; otherwise `log-entry`.  The line `ERROR on EXIT ✅` is an error
line, and every line gets exactly one of the four classes. -/
theorem logClass_precedence (l : String) :
    (HasErrorMarker l → logClass l = "log-entry log-error") ∧
    (¬ HasErrorMarker l → HasWarningMarker l → logClass l = "log-entry log-warning") ∧
    (¬ HasErrorMarker l → ¬ HasWarningMarker l → HasSuccessMarker l →
      logClass l = "log-entry log-success") ∧
    (¬ HasErrorMarker l → ¬ HasWarningMarker l → ¬ HasSuccessMarker l →
      logClass l = "log-entry") ∧
    (HasErrorMarker l → HasSuccessMarker l → logClass l = "log-entry log-error") ∧
    HasErrorMarker "ERROR on EXIT ✅" ∧ HasSuccessMarker "ERROR on EXIT ✅" ∧
    logClass "ERROR on EXIT ✅" = "log-entry log-error" ∧
    (∃! c, c ∈ ["log-entry log-error", "log-entry log-warning", "log-entry log-success",
        "log-entry"] ∧ logClass l = c) := by
  rw [hasErrorMarker_iff, hasWarningMarker_iff, hasSuccessMarker_iff]
  refine ⟨fun h => ?_, fun h1 h2 => ?_, fun h1 h2 h3 => ?_, fun h1 h2 h3 => ?_, fun h _ => ?_,
    (hasErrorMarker_iff _).mpr (by decide), (hasSuccessMarker_iff _).mpr (by decide),
    by decide, ?_⟩
  · unfold logClass
    simp only [h, if_true]
    rfl
  · unfold logClass
    simp only [h1, h2, if_true]
    rfl
  · unfold logClass
    simp only [h1, h2, h3, if_true]
    rfl
  · unfold logClass
    simp only [h1, h2, h3]
    rfl
  · unfold logClass
    simp only [h, if_true]
    rfl
  · exact ⟨logClass l, ⟨logClass_mem l, rfl⟩, fun y hy => hy.2.symm⟩

/-! ## Escaping -/

theorem escapeHtml_data (s : String) : (escapeHtml s).data = s.data.flatMap escapeChar := by
  simp only [escapeHtml, replaceAllChar, List.flatMap_assoc]
  congr 1
  funext c
  by_cases h1 : c = '&'
  · subst h1; decide
  · by_cases h2 : c = '<'
    · subst h2; decide
    · by_cases h3 : c = '>'
      · subst h3; decide
      · simp [escapeChar, h1, h2, h3]

theorem escapeChar_no_angle (c x : Char) (hx : x ∈ escapeChar c) : x ≠ '<' ∧ x ≠ '>' := by
  unfold escapeChar at hx
  split_ifs at hx with h1 h2 h3
  · have : x ∈ ['&', 'a', 'm', 'p', ';'] := hx
    simp only [List.mem_cons, List.mem_singleton, List.not_mem_nil, or_false] at this
    rcases this with rfl | rfl | rfl | rfl | rfl <;> decide
  · have : x ∈ ['&', 'l', 't', ';'] := hx
    simp only [List.mem_cons, List.mem_singleton, List.not_mem_nil, or_false] at this
    rcases this with rfl | rfl | rfl | rfl <;> decide
  · have : x ∈ ['&', 'g', 't', ';'] := hx
    simp only [List.mem_cons, List.mem_singleton, List.not_mem_nil, or_false] at this
    rcases this with rfl | rfl | rfl | rfl <;> decide
  · simp only [List.mem_singleton] at hx
    subst hx
    exact ⟨h2, h3⟩

theorem escaped_no_angle (l : List Char) (x : Char) (hx : x ∈ l.flatMap escapeChar) :
    x ≠ '<' ∧ x ≠ '>' := by
  obtain ⟨c, _, hc⟩ := List.mem_flatMap.mp hx
  exact escapeChar_no_angle c x hc

theorem escapeChar_split (c : Char) (a r : List Char) (h : escapeChar c = a ++ '&' :: r) :
    a = [] ∧ (r = "amp;".data ∨ r = "lt;".data ∨ r = "gt;".data) := by
  unfold escapeChar at h
  split_ifs at h with h1 h2 h3
  · have h' : ['&', 'a', 'm', 'p', ';'] = a ++ '&' :: r := h
    rcases a with _ | ⟨x1, _ | ⟨x2, _ | ⟨x3, _ | ⟨x4, _ | ⟨x5, a⟩⟩⟩⟩⟩ <;>
      simp only [List.nil_append, List.cons_append, List.cons.injEq] at h'
    · exact ⟨rfl, Or.inl h'.2.symm⟩
    · exact absurd h'.2.1 (by decide)
    · exact absurd h'.2.2.1 (by decide)
    · exact absurd h'.2.2.2.1 (by decide)
    · exact absurd h'.2.2.2.2.1 (by decide)
    · simp at h'
  · have h' : ['&', 'l', 't', ';'] = a ++ '&' :: r := h
    rcases a with _ | ⟨x1, _ | ⟨x2, _ | ⟨x3, _ | ⟨x4, a⟩⟩⟩⟩ <;>
      simp only [List.nil_append, List.cons_append, List.cons.injEq] at h'
    · exact ⟨rfl, Or.inr (Or.inl h'.2.symm)⟩
    · exact absurd h'.2.1 (by decide)
    · exact absurd h'.2.2.1 (by decide)
    · exact absurd h'.2.2.2.1 (by decide)
    · simp at h'
  · have h' : ['&', 'g', 't', ';'] = a ++ '&' :: r := h
    rcases a with _ | ⟨x1, _ | ⟨x2, _ | ⟨x3, _ | ⟨x4, a⟩⟩⟩⟩ <;>
      simp only [List.nil_append, List.cons_append, List.cons.injEq] at h'
    · exact ⟨rfl, Or.inr (Or.inr h'.2.symm)⟩
    · exact absurd h'.2.1 (by decide)
    · exact absurd h'.2.2.1 (by decide)
    · exact absurd h'.2.2.2.1 (by decide)
    · simp at h'
  · rcases a with _ | ⟨x1, a⟩ <;>
      simp only [List.nil_append, List.cons_append, List.cons.injEq] at h
    · exact absurd h.1 h1
    · simp at h

theorem escaped_ampersand (l : List Char) (a b : List Char)
    (h : l.flatMap escapeChar = a ++ '&' :: b) : EntityTail b := by
  induction l generalizing a with
  | nil => simp at h
  | cons c l ih =>
    rw [List.flatMap_cons, List.append_eq_append_iff] at h
    rcases h with ⟨a', _, h2⟩ | ⟨c', h1, h2⟩
    · exact ih a' h2
    · cases c' with
      | nil => exact ih [] (by simpa using h2.symm)
      | cons x r =>
        simp only [List.cons_append, List.cons.injEq] at h2
        obtain ⟨rfl, rfl⟩ := h2
        obtain ⟨_, hr⟩ := escapeChar_split c a r h1
        rcases hr with rfl | rfl | rfl
        · exact ⟨_, Or.inl rfl⟩
        · exact ⟨_, Or.inr (Or.inl rfl)⟩
        · exact ⟨_, Or.inr (Or.inr rfl)⟩

theorem unescapeChars_escaped (l : List Char) : unescapeChars (l.flatMap escapeChar) = l := by
  induction l with
  | nil => rfl
  | cons c l ih =>
    rw [List.flatMap_cons]
    by_cases h1 : c = '&'
    · subst h1
      show unescapeChars ('&' :: 'a' :: 'm' :: 'p' :: ';' :: l.flatMap escapeChar) = _
      simp [unescapeChars, ih]
    · by_cases h2 : c = '<'
      · subst h2
        show unescapeChars ('&' :: 'l' :: 't' :: ';' :: l.flatMap escapeChar) = _
        simp [unescapeChars, ih]
      · by_cases h3 : c = '>'
        · subst h3
          show unescapeChars ('&' :: 'g' :: 't' :: ';' :: l.flatMap escapeChar) = _
          simp [unescapeChars, ih]
        · simp only [escapeChar, if_neg h1, if_neg h2, if_neg h3, List.singleton_append]
          have step : ∀ r, unescapeChars (c :: r) = c :: unescapeChars r := by
            intro r
            conv_lhs => unfold unescapeChars
            simp only [if_neg h1]
          rw [step, ih]

theorem unescapeHtml_escapeHtml (s : String) : unescapeHtml (escapeHtml s) = s := by
  simp [unescapeHtml, escapeHtml_data, unescapeChars_escaped]

theorem count_escaped (s : String) (c : Char) (hc : c = '<' ∨ c = '>') :
    (escapeHtml s).data.count c = 0 := by
  rw [List.count_eq_zero, escapeHtml_data]
  intro hmem
  have := escaped_no_angle _ _ hmem
  rcases hc with rfl | rfl
  · exact this.1 rfl
  · exact this.2 rfl

theorem count_renderLogLine (l : String) (c : Char) (hc : c = '<' ∨ c = '>') :
    (renderLogLine l).data.count c = 2 := by
  have hlt : ∀ cls ∈ ["log-entry log-error", "log-entry log-warning", "log-entry log-success",
      "log-entry"],
      ("<div class=\"".data ++ (cls : String).data ++ "\">".data).count '<'
        + "</div>".data.count '<' = 2 := by decide
  have hgt : ∀ cls ∈ ["log-entry log-error", "log-entry log-warning", "log-entry log-success",
      "log-entry"],
      ("<div class=\"".data ++ (cls : String).data ++ "\">".data).count '>'
        + "</div>".data.count '>' = 2 := by decide
  simp only [renderLogLine, String.data_append, List.count_append, count_escaped l c hc]
  rcases hc with rfl | rfl
  · have := hlt (logClass l) (logClass_mem l)
    simp only [List.count_append] at this
    omega
  · have := hgt (logClass l) (logClass_mem l)
    simp only [List.count_append] at this
    omega

theorem count_renderLogs (logs : List String) (c : Char) (hc : c = '<' ∨ c = '>') :
    (renderLogs logs).data.count c = 2 * logs.length := by
  have key : ∀ (ls : List String) (init : String),
      (ls.foldl (fun acc l => acc ++ renderLogLine l) init).data.count c
        = init.data.count c + 2 * ls.length := by
    intro ls
    induction ls with
    | nil => intro init; simp
    | cons l ls ih =>
      intro init
      rw [List.foldl_cons, ih, String.data_append, List.count_append,
        count_renderLogLine l c hc, List.length_cons]
      ring
  have := key logs ""
  simpa [renderLogs] using this

/-- C10: the text `escapeHtml` returns has no `<` and no `>`, each of its ampersands
begins one of `&amp;`, `&lt;`, `&gt;`, turning those entities back recovers the
argument (so `escapeHtml` is injective and `<` becomes `&lt;`), and the markup
`updateStatusUI` builds from the log lines has two `<` and two `>` for every line: the
ones of the `div` the script writes around it. -/
theorem escapeHtml_safe (s : String) :
    '<' ∉ (escapeHtml s).data ∧ '>' ∉ (escapeHtml s).data ∧
    (∀ a b : List Char, (escapeHtml s).data = a ++ '&' :: b →
      ∃ t, b = "amp;".data ++ t ∨ b = "lt;".data ++ t ∨ b = "gt;".data ++ t) ∧
    unescapeHtml (escapeHtml s) = s ∧
    (∀ t : String, escapeHtml t = escapeHtml s → t = s) ∧
    escapeHtml "<" = "&lt;" ∧
    (∀ logs : List String, (renderLogs logs).data.count '<' = 2 * logs.length ∧
      (renderLogs logs).data.count '>' = 2 * logs.length) := by
  refine ⟨?_, ?_, ?_, unescapeHtml_escapeHtml s, ?_, by decide, ?_⟩
  · intro h
    rw [escapeHtml_data] at h
    exact (escaped_no_angle _ _ h).1 rfl
  · intro h
    rw [escapeHtml_data] at h
    exact (escaped_no_angle _ _ h).2 rfl
  · intro a b h
    rw [escapeHtml_data] at h
    exact escaped_ampersand _ a b h
  · intro t h
    have := congrArg unescapeHtml h
    simpa [unescapeHtml_escapeHtml] using this
  · intro logs
    exact ⟨count_renderLogs logs '<' (Or.inl rfl), count_renderLogs logs '>' (Or.inr rfl)⟩

/-! ## OTP submission -/

theorem utf16Units_append (a b : List Char) :
    utf16Units (a ++ b) = utf16Units a + utf16Units b := by
  induction a with
  | nil => simp [utf16Units]
  | cons c cs ih => simp [utf16Units, ih, Nat.add_assoc]

theorem utf16Units_reverse (a : List Char) : utf16Units a.reverse = utf16Units a := by
  induction a with
  | nil => rfl
  | cons c cs ih => simp [utf16Units_append, utf16Units, ih, Nat.add_comm]

theorem utf16Units_dropWhile_le (p : Char → Bool) (a : List Char) :
    utf16Units (a.dropWhile p) ≤ utf16Units a := by
  induction a with
  | nil => simp [utf16Units]
  | cons c cs ih =>
    rw [List.dropWhile_cons]
    split
    · simp only [utf16Units]; omega
    · exact Nat.le_refl _

theorem jsLength_jsTrim_le (s : String) : jsLength (jsTrim s) ≤ jsLength s := by
  unfold jsLength jsTrim
  rw [utf16Units_reverse]
  exact Nat.le_trans (utf16Units_dropWhile_le _ _)
    (by rw [utf16Units_reverse]; exact utf16Units_dropWhile_le _ _)

/-- C4: when the OTP input has fewer than four code units, counted before or after
trimming, `submitOtp` only shows the error banner: no request leaves, the OTP dialog
stays as it is, and the settings and the form are not reloaded. -/
theorem submitOtp_short (coerce : String → JVal → String) (s : State)
    (out settingsOut : FetchOutcome JObj)
    (h : jsLength s.dom.otpInput < 4 ∨ jsLength (jsTrim s.dom.otpInput) < 4) :
    submitOtp coerce s out settingsOut = showNotif s (.str "Please enter a valid OTP") "error" ∧
    (submitOtp coerce s out settingsOut).requests = s.requests ∧
    (submitOtp coerce s out settingsOut).dom.otpModalHidden = s.dom.otpModalHidden ∧
    (submitOtp coerce s out settingsOut).currentSettings = s.currentSettings ∧
    (submitOtp coerce s out settingsOut).dom.inputs = s.dom.inputs ∧
    (submitOtp coerce s out settingsOut).dom.banners =
      s.dom.banners ++ [{ message := .str "Please enter a valid OTP", type := "error" }] := by
  have hlt : jsLength (jsTrim s.dom.otpInput) < 4 := by
    rcases h with h | h
    · exact Nat.lt_of_le_of_lt (jsLength_jsTrim_le _) h
    · exact h
  have heq : submitOtp coerce s out settingsOut
      = showNotif s (.str "Please enter a valid OTP") "error" := by
    unfold submitOtp
    simp only [hlt, or_true, if_true]
  rw [heq]
  exact ⟨rfl, rfl, rfl, rfl, rfl, rfl⟩

theorem submitOtp_short_witness :
    jsLength shortOtpState.dom.otpInput = 5 ∧
    jsLength (jsTrim shortOtpState.dom.otpInput) = 3 ∧
    (submitOtp sampleCoerce shortOtpState (.http 200 none) .failed).requests = [] ∧
    (submitOtp sampleCoerce shortOtpState (.http 200 none) .failed).dom.otpModalHidden = false :=
  ⟨by decide, by decide,
    (submitOtp_short sampleCoerce shortOtpState (.http 200 none) .failed
      (Or.inr (by decide))).2.1,
    (submitOtp_short sampleCoerce shortOtpState (.http 200 none) .failed
      (Or.inr (by decide))).2.2.1⟩

/-! ## Trading mode -/

theorem JObj.get_set_same (o : JObj) (k : String) (v : JVal) : (o.set k v).get k = v := by
  induction o with
  | nil => simp [JObj.set, JObj.get, List.lookup]
  | cons kv rest ih =>
    obtain ⟨k', v'⟩ := kv
    by_cases hk : k' = k
    · simp [JObj.set, JObj.get, List.lookup, hk]
    · have hk' : (k == k') = false := by simpa using fun h => hk h.symm
      simp only [JObj.set, if_neg hk, JObj.get, List.lookup, hk']
      exact ih

theorem JObj.set_set_same (o : JObj) (k : String) (v w : JVal) :
    (o.set k v).set k w = o.set k w := by
  induction o with
  | nil => simp [JObj.set]
  | cons kv rest ih =>
    obtain ⟨k', v'⟩ := kv
    by_cases hk : k' = k
    · simp [JObj.set, hk]
    · simp [JObj.set, hk, ih]

/-- C2: `setMode` asks for a confirmation exactly when the requested mode is `LIVE`
and the mode in `currentSettings` is not.  In that case the `setLive` callback is
stored, the dialog is shown and `currentSettings` is left as it was; confirming then
sets the mode to `LIVE`, cancelling leaves it.  In every other case no callback is
stored, the dialog is left alone and the mode is the requested one at once. -/
theorem setMode_confirmation (s : State) (mode : String) :
    ((mode = "LIVE" ∧ s.currentSettings.get "trading_mode" ≠ .str "LIVE") →
      (setMode s mode).pendingConfirmCallback = some .setLive ∧
      (setMode s mode).dom.confirmModalHidden = false ∧
      (setMode s mode).dom.confirmTitle = "Switch to LIVE mode?" ∧
      (setMode s mode).currentSettings = s.currentSettings ∧
      (∀ (out : FetchOutcome JObj) (statusOut : FetchOutcome BotStatus),
        (confirmAction (setMode s mode) out statusOut).currentSettings.get "trading_mode"
            = .str "LIVE" ∧
        (confirmAction (setMode s mode) out statusOut).pendingConfirmCallback = none) ∧
      (hideConfirm (setMode s mode)).currentSettings = s.currentSettings) ∧
    (¬ (mode = "LIVE" ∧ s.currentSettings.get "trading_mode" ≠ .str "LIVE") →
      (setMode s mode).pendingConfirmCallback = s.pendingConfirmCallback ∧
      (setMode s mode).dom.confirmModalHidden = s.dom.confirmModalHidden ∧
      (setMode s mode).dom.confirmTitle = s.dom.confirmTitle ∧
      (setMode s mode).currentSettings.get "trading_mode" = .str mode) := by
  constructor
  · intro h
    have heq : setMode s mode = showConfirm s "⚡" "Switch to LIVE mode?"
        "Real orders will be placed with mStock using your account. This action trades with real money."
        .setLive := by
      unfold setMode
      rw [if_pos h]
    rw [heq]
    refine ⟨rfl, rfl, rfl, rfl, ?_, rfl⟩
    intro out statusOut
    simp [confirmAction, showConfirm, hideConfirm, setModeUI, JObj.get_set_same]
  · intro h
    have heq : setMode s mode
        = setModeUI { s with currentSettings := s.currentSettings.set "trading_mode" (.str mode) }
            (.str mode) := by
      unfold setMode
      rw [if_neg h]
    rw [heq]
    refine ⟨rfl, rfl, rfl, ?_⟩
    simp [setModeUI, JObj.get_set_same]

theorem setMode_confirmation_witness :
    (setMode capitalOnlyState "LIVE").pendingConfirmCallback = some .setLive ∧
    (setMode capitalOnlyState "LIVE").currentSettings.get "trading_mode" = .str "PAPER" ∧
    (confirmAction (setMode capitalOnlyState "LIVE") .failed .failed).currentSettings.get
      "trading_mode" = .str "LIVE" ∧
    (setMode (confirmAction (setMode capitalOnlyState "LIVE") .failed .failed)
      "PAPER").currentSettings.get "trading_mode" = .str "PAPER" ∧
    (setMode (confirmAction (setMode capitalOnlyState "LIVE") .failed .failed)
      "PAPER").pendingConfirmCallback = none :=
  ⟨((setMode_confirmation capitalOnlyState "LIVE").1 ⟨rfl, by decide⟩).1,
    by decide, by decide, by decide, by decide⟩

/-! ## Bot control -/

/-- C8, the stop path at a failing reply: the bot runs, the user asks to stop it and
confirms, the stop endpoint answers with status `error`; the banner shown carries the
type `success`. -/
theorem stop_error_reply_shown_as_success :
    stopErrorReply.get "status" = .str "error" ∧
    (handleBotToggle runningState .failed .failed).pendingConfirmCallback = some .stopBot ∧
    (confirmAction (handleBotToggle runningState .failed .failed)
        (.http 200 (some stopErrorReply)) .failed).dom.banners
      = [{ message := .str "Could not stop", type := "success" }] := by
  refine ⟨by decide, by decide, by decide⟩

theorem updateStatusUI_banners (s : State) (status : BotStatus) :
    (updateStatusUI s status).dom.banners = s.dom.banners := by
  unfold updateStatusUI
  simp only
  cases status.logs with
  | none => rfl
  | some logs =>
    simp only
    split <;> rfl

theorem receive_banners {α : Type} (s : State) (out : FetchOutcome α) :
    (receive s out).1.dom.banners = s.dom.banners := by
  cases out with
  | failed => rfl
  | http status body =>
    simp only [receive]
    split
    · simp only [logout, clearInterval]
      cases s.POLL_INTERVAL <;> rfl
    · rfl

theorem pollStatus_banners (s : State) (out : FetchOutcome BotStatus) :
    (pollStatus s out).dom.banners = s.dom.banners := by
  unfold pollStatus pollStatusResume
  generalize hp : receive _ out = p
  have h : p.1.dom.banners = s.dom.banners := by
    rw [← hp, receive_banners]
    rfl
  obtain ⟨s1, _ | status⟩ := p
  · exact h
  · simp only [updateStatusUI_banners]
    exact h

/-- The start path of `handleBotToggle`: a reply with status `error` is shown in a
banner of type `error`. -/
theorem start_error_reply_shown_as_error (s : State) (code : Nat) (r : JObj)
    (statusOut : FetchOutcome BotStatus)
    (hstopped : s.dom.ctaLabel ≠ "STOP BOT") (hcode : code ≠ 401)
    (herr : r.get "status" = .str "error") :
    (handleBotToggle s (.http code (some r)) statusOut).dom.banners
      = s.dom.banners ++
          [{ message := (r.get "message").or (.str "Bot started!"), type := "error" }] := by
  unfold handleBotToggle
  simp only [hstopped, if_false, apiCall, receive, if_neg hcode, pollStatus_banners, herr]
  simp [showNotif, sendRequest]

/-- The stop path of `handleBotToggle`, once confirmed: whatever the status of the
reply, the banner has the type `success`. -/
theorem stop_reply_always_shown_as_success (s : State) (code : Nat) (r : JObj)
    (statusOut : FetchOutcome BotStatus)
    (hpending : s.pendingConfirmCallback = some .stopBot) (hcode : code ≠ 401) :
    (confirmAction s (.http code (some r)) statusOut).dom.banners
      = s.dom.banners ++
          [{ message := (r.get "message").or (.str "Bot stopping..."), type := "success" }] := by
  unfold confirmAction
  simp only [hpending, stopBotResume, receive, if_neg hcode, pollStatus_banners]
  simp [showNotif, sendRequest, hideConfirm]

/-! ## Logout and the poller -/

theorem Shrinks.refl (s : State) : Shrinks s s := ⟨rfl, fun _ h => h⟩

theorem Shrinks.trans {s t u : State} (h1 : Shrinks s t) (h2 : Shrinks t u) : Shrinks s u :=
  ⟨h2.1.trans h1.1, fun x hx => h1.2 x (h2.2 x hx)⟩

theorem Shrinks.timers_nil {s u : State} (h : Shrinks s u) (hs : s.timers = []) :
    u.timers = [] := by
  cases hu : u.timers with
  | nil => rfl
  | cons t ts =>
    have := h.2 t (by simp [hu])
    rw [hs] at this
    exact absurd this (List.not_mem_nil t)

theorem Shrinks.pollerOnly {s u : State} (h : Shrinks s u) (hs : PollerOnly s) :
    PollerOnly u := by
  intro t ht
  rw [h.1]
  exact hs t (h.2 t ht)

theorem logout_shrinks (s : State) : Shrinks s (logout s) := by
  cases hp : s.POLL_INTERVAL with
  | none => exact ⟨by simp [logout, clearInterval, hp], by simp [logout, clearInterval, hp]⟩
  | some t =>
    refine ⟨by simp [logout, clearInterval, hp], ?_⟩
    intro x hx
    simp only [logout, clearInterval, hp] at hx
    exact (List.mem_filter.mp hx).1

theorem receive_shrinks {α : Type} (s : State) (out : FetchOutcome α) :
    Shrinks s (receive s out).1 := by
  cases out with
  | failed => exact Shrinks.refl s
  | http status body =>
    simp only [receive]
    split
    · exact logout_shrinks s
    · exact Shrinks.refl s

theorem apiCall_shrinks {α : Type} (s : State) (url method : String) (body : Option JObj)
    (out : FetchOutcome α) : Shrinks s (apiCall s url method body out).1 :=
  receive_shrinks (sendRequest s url method body) out

theorem pollStatusResume_shrinks (s : State) (out : FetchOutcome BotStatus) :
    Shrinks s (pollStatusResume s out) := by
  unfold pollStatusResume
  generalize hp : receive s out = p
  have h : Shrinks s p.1 := by rw [← hp]; exact receive_shrinks _ _
  obtain ⟨s1, _ | status⟩ := p
  · exact h
  · exact h

theorem pollStatus_shrinks (s : State) (out : FetchOutcome BotStatus) :
    Shrinks s (pollStatus s out) :=
  pollStatusResume_shrinks (sendRequest s "/api/bot/status" "GET" none) out

theorem loadSettingsResume_shrinks (coerce : String → JVal → String) (s : State)
    (out : FetchOutcome JObj) : Shrinks s (loadSettingsResume coerce s out) := by
  unfold loadSettingsResume
  generalize hp : receive s out = p
  have h : Shrinks s p.1 := by rw [← hp]; exact receive_shrinks _ _
  obtain ⟨s1, _ | snap⟩ := p
  · exact h
  · exact h

theorem loadSettings_shrinks (coerce : String → JVal → String) (s : State)
    (out : FetchOutcome JObj) : Shrinks s (loadSettings coerce s out) :=
  loadSettingsResume_shrinks coerce (sendRequest s "/api/settings/" "GET" none) out

theorem saveSettings_shrinks (coerce : String → JVal → String) (s : State)
    (out : FetchOutcome SaveReply) : Shrinks s (saveSettings coerce s out) := by
  unfold saveSettings
  simp only
  generalize hp : apiCall _ _ _ _ out = p
  have h : Shrinks s p.1 := by rw [← hp]; exact apiCall_shrinks _ _ _ _ _
  obtain ⟨s2, _ | ⟨_ | snap⟩⟩ := p
  · exact h
  · exact h
  · exact h

theorem testConnection_shrinks (s : State) (out : FetchOutcome JObj) :
    Shrinks s (testConnection s out) := by
  unfold testConnection
  simp only
  generalize hp : apiCall _ _ _ _ out = p
  have h : Shrinks s p.1 := by rw [← hp]; exact apiCall_shrinks _ _ _ _ _
  obtain ⟨s2, _ | r⟩ := p
  · exact h
  · exact h

theorem initiateLogin_shrinks (s : State) (out : FetchOutcome JObj) :
    Shrinks s (initiateLogin s out) := by
  unfold initiateLogin
  simp only
  generalize hp : apiCall _ _ _ _ out = p
  have h : Shrinks s p.1 := by rw [← hp]; exact apiCall_shrinks _ _ _ _ _
  obtain ⟨s2, _ | r⟩ := p
  · exact h
  · simp only
    split
    · exact h
    · exact h

theorem submitOtp_shrinks (coerce : String → JVal → String) (s : State)
    (out settingsOut : FetchOutcome JObj) : Shrinks s (submitOtp coerce s out settingsOut) := by
  unfold submitOtp
  simp only
  split
  · exact Shrinks.refl s
  · generalize hp : apiCall _ _ _ _ out = p
    have h : Shrinks s p.1 := by rw [← hp]; exact apiCall_shrinks _ _ _ _ _
    obtain ⟨s2, _ | r⟩ := p
    · exact Shrinks.trans h (loadSettings_shrinks coerce _ settingsOut)
    · exact Shrinks.trans h (loadSettings_shrinks coerce _ settingsOut)

theorem stopBotResume_shrinks (s : State) (out : FetchOutcome JObj)
    (statusOut : FetchOutcome BotStatus) : Shrinks s (stopBotResume s out statusOut) := by
  unfold stopBotResume
  generalize hp : receive s out = p
  have h : Shrinks s p.1 := by rw [← hp]; exact receive_shrinks _ _
  obtain ⟨s2, _ | r⟩ := p
  · exact Shrinks.trans h (pollStatus_shrinks _ statusOut)
  · exact Shrinks.trans h (pollStatus_shrinks _ statusOut)

theorem handleBotToggle_shrinks (s : State) (out : FetchOutcome JObj)
    (statusOut : FetchOutcome BotStatus) : Shrinks s (handleBotToggle s out statusOut) := by
  unfold handleBotToggle
  simp only
  split
  · exact Shrinks.refl s
  · generalize hp : apiCall _ _ _ _ out = p
    have h : Shrinks s p.1 := by rw [← hp]; exact apiCall_shrinks _ _ _ _ _
    obtain ⟨s2, _ | r⟩ := p
    · exact Shrinks.trans h (pollStatus_shrinks _ statusOut)
    · refine Shrinks.trans ?_ (pollStatus_shrinks _ statusOut)
      simp only
      split
      · exact h
      · exact h

theorem confirmAction_shrinks (s : State) (out : FetchOutcome JObj)
    (statusOut : FetchOutcome BotStatus) : Shrinks s (confirmAction s out statusOut) := by
  unfold confirmAction
  split
  · exact stopBotResume_shrinks
      (hideConfirm (sendRequest s "/api/bot/stop" "POST" none)) out statusOut
  · exact Shrinks.refl s
  · exact Shrinks.refl s

theorem setMode_shrinks (s : State) (mode : String) : Shrinks s (setMode s mode) := by
  unfold setMode
  split
  · exact Shrinks.refl s
  · exact Shrinks.refl s

theorem step_shrinks (coerce : String → JVal → String) (s u : State)
    (hstep : Step coerce s u) : Shrinks s u := by
  cases hstep with
  | tick h out running => exact pollStatus_shrinks s out
  | statusReply out => exact pollStatusResume_shrinks s out
  | settingsReply out => exact loadSettingsResume_shrinks coerce s out
  | logout => exact logout_shrinks s
  | handleBotToggle out statusOut => exact handleBotToggle_shrinks s out statusOut
  | confirmAction out statusOut => exact confirmAction_shrinks s out statusOut
  | hideConfirm => exact Shrinks.refl s
  | setMode mode => exact setMode_shrinks s mode
  | saveSettings out => exact saveSettings_shrinks coerce s out
  | testConnection out => exact testConnection_shrinks s out
  | initiateLogin out => exact initiateLogin_shrinks s out
  | showOtpModal => exact Shrinks.refl s
  | hideOtpModal => exact Shrinks.refl s
  | submitOtp out settingsOut => exact submitOtp_shrinks coerce s out settingsOut
  | toggleSection name => exact Shrinks.refl s
  | editInput id v => exact Shrinks.refl s
  | editCheck id b => exact Shrinks.refl s
  | editOtp v => exact Shrinks.refl s

theorem reachable_shrinks (coerce : String → JVal → String) (s u : State)
    (hreach : Reachable coerce s u) : Shrinks s u := by
  induction hreach with
  | refl => exact Shrinks.refl s
  | step t u _ now ih => exact Shrinks.trans ih (step_shrinks coerce t u now)

theorem domContentLoaded_pollerOnly (s : State) (hs : s.timers = []) :
    PollerOnly (domContentLoaded s) := by
  unfold domContentLoaded
  split
  · intro t ht
    rw [hs] at ht
    exact absurd ht (List.not_mem_nil t)
  · split
    · intro t ht
      rw [hs] at ht
      exact absurd ht (List.not_mem_nil t)
    · intro t ht
      simp only [setInterval, sendRequest, hs, List.nil_append, List.mem_singleton] at ht
      simp [setInterval, sendRequest, ht]

/-- In every state the page reaches after its load, the only interval timer that can be
running is the poller held in `POLL_INTERVAL`. -/
theorem loaded_page_pollerOnly (coerce : String → JVal → String) (s u : State)
    (hs : s.timers = []) (hreach : Reachable coerce (domContentLoaded s) u) :
    PollerOnly u :=
  (reachable_shrinks coerce _ u hreach).pollerOnly (domContentLoaded_pollerOnly s hs)

theorem logout_cancels (s : State) (h : PollerOnly s) : (logout s).timers = [] := by
  cases hp : s.POLL_INTERVAL with
  | none =>
    have : s.timers = [] := by
      cases hts : s.timers with
      | nil => rfl
      | cons t ts =>
        have := h t (by simp [hts])
        rw [hp] at this
        exact absurd this (by simp)
    simp [logout, clearInterval, hp, this]
  | some p =>
    simp only [logout, clearInterval, hp, List.filter_eq_nil_iff]
    intro t ht
    have := h t ht
    rw [hp] at this
    simp only [Option.some.injEq] at this
    simp [this]

/-- C7: a status poll answered with HTTP 401, in a state where the only interval
running is the poller, makes `apiCall` return `null` and log out: the interval is
cancelled, so no timer is running then or in any state the page reaches afterwards;
`localStorage` is emptied (no token, no user name); `/login` is assigned to the
location once; `updateStatusUI` does not run, the page is as it was. -/
theorem poll_401_logs_out (coerce : String → JVal → String) (s : State)
    (body : Option BotStatus) (h : PollerOnly s) :
    (apiCall s "/api/bot/status" "GET" none (.http 401 body)).2 = none ∧
    pollStatus s (.http 401 body) = logout (sendRequest s "/api/bot/status" "GET" none) ∧
    (pollStatus s (.http 401 body)).timers = [] ∧
    (pollStatus s (.http 401 body)).localStorage = [] ∧
    (pollStatus s (.http 401 body)).localStorage.lookup "fno_token" = none ∧
    (pollStatus s (.http 401 body)).localStorage.lookup "fno_user" = none ∧
    (pollStatus s (.http 401 body)).navigations = s.navigations ++ ["/login"] ∧
    (pollStatus s (.http 401 body)).dom = s.dom ∧
    (∀ u, Reachable coerce (pollStatus s (.http 401 body)) u → ∀ t, t ∉ u.timers) := by
  have heq : pollStatus s (.http 401 body)
      = logout (sendRequest s "/api/bot/status" "GET" none) := by
    simp [pollStatus, pollStatusResume, receive]
  have htimers : (logout (sendRequest s "/api/bot/status" "GET" none)).timers = [] :=
    logout_cancels _ (by simpa [PollerOnly, sendRequest] using h)
  rw [heq]
  refine ⟨by simp [apiCall, receive], rfl, htimers, rfl, rfl, rfl, ?_, ?_, ?_⟩
  · simp [logout, clearInterval, sendRequest]
    cases s.POLL_INTERVAL <;> rfl
  · simp [logout, clearInterval, sendRequest]
    cases s.POLL_INTERVAL <;> rfl
  · intro u hu t
    rw [(reachable_shrinks coerce _ u hu).timers_nil htimers]
    exact List.not_mem_nil t

theorem poll_401_logs_out_witness :
    (domContentLoaded pageState).timers = [1] ∧
    (domContentLoaded pageState).POLL_INTERVAL = some 1 ∧
    (pollStatus (domContentLoaded pageState) (.http 401 none)).timers = [] ∧
    (pollStatus (domContentLoaded pageState) (.http 401 none)).navigations = ["/login"] :=
  ⟨by decide, by decide,
    (poll_401_logs_out sampleCoerce (domContentLoaded pageState) none
      (domContentLoaded_pollerOnly pageState rfl)).2.2.1,
    (poll_401_logs_out sampleCoerce (domContentLoaded pageState) none
      (domContentLoaded_pollerOnly pageState rfl)).2.2.2.2.2.2.1⟩

/-! ## The settings payload -/

theorem get_blank (d : Dom) (id : String)
    (h : d.inputs id = none ∨ d.inputs id = some "") : get d id = .null := by
  rcases h with h | h <;> simp [get, h, JVal.or, JVal.truthy]

theorem getNum_blank (d : Dom) (id : String)
    (h : d.inputs id = none ∨ d.inputs id = some "") : getNum d id = .null := by
  simp [getNum, get_blank d id h]

theorem getInt_blank (d : Dom) (id : String)
    (h : d.inputs id = none ∨ d.inputs id = some "") : getInt d id = .null := by
  simp [getInt, get_blank d id h]

theorem get_typed (d : Dom) (id v : String) (h : d.inputs id = some v) (hv : v ≠ "") :
    get d id = .str v := by
  simp [get, h, JVal.or, JVal.truthy, hv]

theorem payloadRows_keys_nodup : (payloadRows.map Prod.fst).Nodup := by decide

theorem payloadRows_unique (k : String) (a b : Source)
    (ha : (k, a) ∈ payloadRows) (hb : (k, b) ∈ payloadRows) : a = b := by
  have := List.inj_on_of_nodup_map payloadRows_keys_nodup ha hb rfl
  exact (Prod.mk.inj this).2

theorem mem_settingsPayload (s : State) (k : String) (v : JVal) :
    (k, v) ∈ settingsPayload s ↔
      ∃ src, (k, src) ∈ payloadRows ∧ v = src.eval s ∧ v ≠ .null ∧ v ≠ .undefined := by
  simp only [settingsPayload, List.mem_filter, List.mem_map, Prod.mk.injEq, Prod.exists,
    Bool.not_eq_true', decide_eq_false_iff_not, not_or]
  constructor
  · rintro ⟨⟨k', src, hrow, rfl, rfl⟩, h1, h2⟩
    exact ⟨src, hrow, rfl, h1, h2⟩
  · rintro ⟨src, hrow, rfl, h1, h2⟩
    exact ⟨⟨k, src, hrow, rfl, rfl⟩, h1, h2⟩

theorem key_mem_settingsPayload (s : State) (k : String) (src : Source)
    (hrow : (k, src) ∈ payloadRows) :
    k ∈ (settingsPayload s).keys ↔ (src.eval s ≠ .null ∧ src.eval s ≠ .undefined) := by
  simp only [JObj.keys, List.mem_map, Prod.exists, exists_and_right, exists_eq_right]
  constructor
  · rintro ⟨v, hv⟩
    obtain ⟨src', hrow', rfl, h1, h2⟩ := (mem_settingsPayload s k v).mp hv
    rw [payloadRows_unique k src src' hrow hrow']
    exact ⟨h1, h2⟩
  · rintro ⟨h1, h2⟩
    exact ⟨src.eval s, (mem_settingsPayload s k _).mpr ⟨src, hrow, rfl, h1, h2⟩⟩

theorem keys_jsonStringify (o : JObj) (h : ∀ kv ∈ o, kv.2 ≠ .undefined) :
    (jsonStringify o).keys = o.keys := by
  have hf : o.filter (fun kv => kv.2 != .undefined) = o := by
    rw [List.filter_eq_self]
    intro kv hkv
    simpa using h kv hkv
  simp [jsonStringify, JObj.keys, hf, List.map_map, Function.comp_def]

theorem keys_jsonStringify_settingsPayload (s : State) :
    (jsonStringify (settingsPayload s)).keys = (settingsPayload s).keys := by
  apply keys_jsonStringify
  rintro ⟨k, v⟩ hkv
  exact ((mem_settingsPayload s k v).mp hkv).choose_spec.2.2.2

theorem logout_requests (s : State) : (logout s).requests = s.requests := by
  simp only [logout]
  cases s.POLL_INTERVAL <;> rfl

theorem receive_requests {α : Type} (s : State) (out : FetchOutcome α) :
    (receive s out).1.requests = s.requests := by
  cases out with
  | failed => rfl
  | http status body =>
    simp only [receive]
    split
    · exact logout_requests s
    · rfl

theorem saveSettings_requests (coerce : String → JVal → String) (s : State)
    (out : FetchOutcome SaveReply) :
    (saveSettings coerce s out).requests = s.requests ++ [settingsRequest s] := by
  unfold saveSettings
  simp only [apiCall]
  generalize hp : receive _ out = p
  have h : p.1.requests = s.requests ++ [settingsRequest s] := by
    rw [← hp, receive_requests]
    rfl
  obtain ⟨s2, _ | ⟨_ | snap⟩⟩ := p
  · exact h
  · exact h
  · exact h

theorem secretFields_are_rows :
    ∀ p ∈ secretFields, (p.1, Source.getOrUndefined p.2) ∈ payloadRows := by decide

/-- C1: a text, number or secret field of the settings form whose input is empty or
missing has no key in the payload `saveSettings` posts, whatever `currentSettings`
holds; the seven write-only fields are among them. -/
theorem saveSettings_omits_blank (coerce : String → JVal → String) (s : State)
    (out : FetchOutcome SaveReply) (key id : String) (src : Source)
    (hrow : (key, src) ∈ payloadRows)
    (hsrc : src = .getNum id ∨ src = .getInt id ∨ src = .get id ∨ src = .getOrUndefined id)
    (hblank : s.dom.inputs id = none ∨ s.dom.inputs id = some "") :
    key ∉ (settingsPayload s).keys ∧
    (saveSettings coerce s out).requests = s.requests ++ [settingsRequest s] ∧
    (settingsRequest s).body = some (jsonStringify (settingsPayload s)) ∧
    key ∉ (jsonStringify (settingsPayload s)).keys := by
  have hkey : key ∉ (settingsPayload s).keys := by
    rw [key_mem_settingsPayload s key src hrow]
    rcases hsrc with rfl | rfl | rfl | rfl
    · simp [Source.eval, getNum_blank _ _ hblank]
    · simp [Source.eval, getInt_blank _ _ hblank]
    · simp [Source.eval, get_blank _ _ hblank]
    · simp [Source.eval, get_blank _ _ hblank, JVal.or, JVal.truthy]
  refine ⟨hkey, saveSettings_requests coerce s out, rfl, ?_⟩
  rw [keys_jsonStringify_settingsPayload]
  exact hkey

theorem saveSettings_omits_blank_witness :
    blankSecretState.currentSettings.get "mstock_api_key_set" = .bool true ∧
    "mstock_password" ∉ (settingsPayload blankSecretState).keys ∧
    "mstock_password" ∉ (jsonStringify (settingsPayload blankSecretState)).keys :=
  ⟨by decide,
    (saveSettings_omits_blank sampleCoerce blankSecretState .failed "mstock_password"
      "s-password" (.getOrUndefined "s-password") (by decide)
      (Or.inr (Or.inr (Or.inr rfl))) (Or.inr (by decide))).1,
    (saveSettings_omits_blank sampleCoerce blankSecretState .failed "mstock_password"
      "s-password" (.getOrUndefined "s-password") (by decide)
      (Or.inr (Or.inr (Or.inr rfl))) (Or.inr (by decide))).2.2.2⟩

/-- C5 as stated fails: with `100000` in the initial-capital input, everything else
blank and `PAPER` as the mode, the payload is not the two-key object; it also has the
six checkbox flags, each `false`. -/
theorem capital_only_payload_has_flags :
    settingsPayload capitalOnlyState ≠
      [("trading_mode", .str "PAPER"), ("initial_capital", .num (.fin false 100000 0))] ∧
    settingsPayload capitalOnlyState =
      [("trading_mode", .str "PAPER"), ("initial_capital", .num (.fin false 100000 0)),
       ("trade_nifty", .bool false), ("trade_banknifty", .bool false),
       ("trade_finnifty", .bool false), ("trade_sensex", .bool false),
       ("email_enabled", .bool false), ("telegram_enabled", .bool false)] := by
  refine ⟨by decide, by decide⟩

/-- C6 as stated fails: with `abc` in the initial-capital input the payload keeps the
key `initial_capital` with the value `NaN`, and the body on the wire carries it as
`null`. -/
theorem unparsable_capital_is_sent :
    parseFloat "abc" = .nan ∧
    ("initial_capital", JVal.num .nan) ∈ settingsPayload unparsableCapitalState ∧
    (settingsRequest unparsableCapitalState).body =
      some [("trading_mode", .str "PAPER"), ("initial_capital", .null),
       ("trade_nifty", .bool false), ("trade_banknifty", .bool false),
       ("trade_finnifty", .bool false), ("trade_sensex", .bool false),
       ("email_enabled", .bool false), ("telegram_enabled", .bool false)] := by
  refine ⟨by decide, by decide, by decide⟩

theorem getBool_checked (d : Dom) (id : String) (b : Bool) (h : d.checks id = some b) :
    getBool d id = .bool b := by
  simp [getBool, h]

/-- C5, amended: with `100000` in the initial-capital input, every other text, number
and secret input empty or missing and the six checkboxes unchecked, the payload is the
current mode (left out when it is `null` or `undefined`), `initial_capital: 100000` and
the six checkbox flags, each `false`; that object is what the settings POST carries. -/
theorem capital_only_payload (coerce : String → JVal → String) (s : State)
    (out : FetchOutcome SaveReply)
    (hcap : s.dom.inputs "s-capital" = some "100000")
    (hblank : ∀ id, id ≠ "s-capital" → (s.dom.inputs id = none ∨ s.dom.inputs id = some ""))
    (hchk : ∀ id ∈ pageCheckIds, s.dom.checks id = some false) :
    settingsPayload s =
      (if s.currentSettings.get "trading_mode" = .null ∨
          s.currentSettings.get "trading_mode" = .undefined then []
        else [("trading_mode", s.currentSettings.get "trading_mode")]) ++
      [("initial_capital", .num (.fin false 100000 0)),
       ("trade_nifty", .bool false), ("trade_banknifty", .bool false),
       ("trade_finnifty", .bool false), ("trade_sensex", .bool false),
       ("email_enabled", .bool false), ("telegram_enabled", .bool false)] ∧
    (saveSettings coerce s out).requests = s.requests ++ [settingsRequest s] ∧
    (settingsRequest s).body = some (jsonStringify (settingsPayload s)) := by
  have g : ∀ id, id ≠ "s-capital" → get s.dom id = .null :=
    fun id h => get_blank _ _ (hblank id h)
  have gn : ∀ id, id ≠ "s-capital" → getNum s.dom id = .null :=
    fun id h => getNum_blank _ _ (hblank id h)
  have gi : ∀ id, id ≠ "s-capital" → getInt s.dom id = .null :=
    fun id h => getInt_blank _ _ (hblank id h)
  have gb : ∀ id, id ∈ pageCheckIds → getBool s.dom id = .bool false :=
    fun id h => getBool_checked _ _ _ (hchk id h)
  have hp : parseFloat "100000" = .fin false 100000 0 := by decide
  have gc : getNum s.dom "s-capital" = .num (.fin false 100000 0) := by
    simp [getNum, get_typed s.dom "s-capital" "100000" hcap (by decide), JVal.truthy, hp]
  refine ⟨?_, saveSettings_requests coerce s out, rfl⟩
  simp (disch := decide) only [settingsPayload, payloadRows, List.map, Source.eval, g, gn, gi,
    gb, gc]
  by_cases hm : s.currentSettings.get "trading_mode" = .null ∨
      s.currentSettings.get "trading_mode" = .undefined
  · simp [List.filter, hm, JVal.or, JVal.truthy]
  · simp [List.filter, hm, JVal.or, JVal.truthy]

theorem capital_only_payload_witness :
    settingsPayload capitalOnlyState =
      [("trading_mode", .str "PAPER"), ("initial_capital", .num (.fin false 100000 0)),
       ("trade_nifty", .bool false), ("trade_banknifty", .bool false),
       ("trade_finnifty", .bool false), ("trade_sensex", .bool false),
       ("email_enabled", .bool false), ("telegram_enabled", .bool false)] :=
  (capital_only_payload sampleCoerce capitalOnlyState .failed (by decide)
    (fun id hid => by
      simp only [capitalOnlyState, typed, pageState, pageDom, if_neg hid]
      split <;> simp)
    (by decide)).1

/-- C6, amended: a number field whose input is not empty and does not parse keeps its
key in the payload with the value `NaN`, and the body of the settings POST carries
that key with `null`; only an empty or missing input leaves the key out. -/
theorem unparsable_number_sent_as_null (coerce : String → JVal → String) (s : State)
    (out : FetchOutcome SaveReply) (key id v : String) (src : Source)
    (hrow : (key, src) ∈ payloadRows)
    (hsrc : (src = .getNum id ∧ parseFloat v = .nan) ∨ (src = .getInt id ∧ parseInt v = .nan))
    (hv : s.dom.inputs id = some v) (hne : v ≠ "") :
    (key, JVal.num .nan) ∈ settingsPayload s ∧
    (key, JVal.null) ∈ jsonStringify (settingsPayload s) ∧
    (saveSettings coerce s out).requests = s.requests ++ [settingsRequest s] ∧
    (settingsRequest s).body = some (jsonStringify (settingsPayload s)) := by
  have heval : src.eval s = .num .nan := by
    rcases hsrc with ⟨rfl, hnan⟩ | ⟨rfl, hnan⟩
    · simp [Source.eval, getNum, get_typed s.dom id v hv hne, JVal.truthy, hne, hnan]
    · simp [Source.eval, getInt, get_typed s.dom id v hv hne, JVal.truthy, hne, hnan]
  have hmem : (key, JVal.num .nan) ∈ settingsPayload s :=
    (mem_settingsPayload s key _).mpr ⟨src, hrow, heval.symm, by simp, by simp⟩
  refine ⟨hmem, ?_, saveSettings_requests coerce s out, rfl⟩
  simp only [jsonStringify, List.mem_map, List.mem_filter]
  exact ⟨(key, .num .nan), ⟨hmem, by simp⟩, rfl⟩

theorem unparsable_number_sent_as_null_witness :
    ("initial_capital", JVal.num .nan) ∈ settingsPayload unparsableCapitalState ∧
    ("initial_capital", JVal.null) ∈ jsonStringify (settingsPayload unparsableCapitalState) :=
  ⟨(unparsable_number_sent_as_null sampleCoerce unparsableCapitalState .failed
      "initial_capital" "s-capital" "abc" (.getNum "s-capital") (by decide)
      (Or.inl ⟨rfl, by decide⟩) (by decide) (by decide)).1,
    (unparsable_number_sent_as_null sampleCoerce unparsableCapitalState .failed
      "initial_capital" "s-capital" "abc" (.getNum "s-capital") (by decide)
      (Or.inl ⟨rfl, by decide⟩) (by decide) (by decide)).2.1⟩

/-! ## Loading a settings snapshot into the form -/

theorem populateRows_ids_nodup : (populateRows.map fun row => row.2.1).Nodup := by decide

theorem applyRow_inputs_other (coerce : String → JVal → String) (snap : JObj) (d : Dom)
    (row : Widget × String × String) (id : String)
    (h : row.1 = .check ∨ row.2.1 ≠ id) :
    (applyRow coerce snap d row).inputs id = d.inputs id := by
  obtain ⟨w, rid, key⟩ := row
  cases w with
  | check =>
    simp only [applyRow]
    split <;> rfl
  | set =>
    have hne : rid ≠ id := by
      rcases h with h | h
      · exact absurd h (by simp)
      · exact h
    simp only [applyRow]
    split
    · split
      · exact if_neg fun h' => hne h'.symm
      · rfl
    · rfl

theorem applyRow_checks_other (coerce : String → JVal → String) (snap : JObj) (d : Dom)
    (row : Widget × String × String) (id : String)
    (h : row.1 = .set ∨ row.2.1 ≠ id) :
    (applyRow coerce snap d row).checks id = d.checks id := by
  obtain ⟨w, rid, key⟩ := row
  cases w with
  | set =>
    simp only [applyRow]
    split
    · split <;> rfl
    · rfl
  | check =>
    have hne : rid ≠ id := by
      rcases h with h | h
      · exact absurd h (by simp)
      · exact h
    simp only [applyRow]
    split
    · exact if_neg fun h' => hne h'.symm
    · rfl

theorem applyRow_inputs_set (coerce : String → JVal → String) (snap : JObj) (d : Dom)
    (id key : String) :
    (applyRow coerce snap d (.set, id, key)).inputs id
      = setResult coerce snap id key (d.inputs id) := by
  simp only [applyRow, setResult]
  cases hd : d.inputs id with
  | none => simp [hd]
  | some old =>
    by_cases hv : snap.get key = .undefined ∨ snap.get key = .null
    · have hv' : ¬ (snap.get key ≠ .undefined ∧ snap.get key ≠ .null) := by tauto
      simp [hv, hv', hd]
    · have hv' : snap.get key ≠ .undefined ∧ snap.get key ≠ .null := by tauto
      simp [hv, hv']

theorem applyRow_checks_check (coerce : String → JVal → String) (snap : JObj) (d : Dom)
    (id key : String) :
    (applyRow coerce snap d (.check, id, key)).checks id
      = (d.checks id).map fun _ => (snap.get key).truthy := by
  simp only [applyRow]
  cases hd : d.checks id with
  | none => simp [hd]
  | some old => simp

theorem foldl_inputs_other (coerce : String → JVal → String) (snap : JObj)
    (rows : List (Widget × String × String)) (d : Dom) (id : String)
    (h : ∀ key, (Widget.set, id, key) ∉ rows) :
    (rows.foldl (applyRow coerce snap) d).inputs id = d.inputs id := by
  induction rows generalizing d with
  | nil => rfl
  | cons r rs ih =>
    rw [List.foldl_cons, ih _ (fun key hk => h key (List.mem_cons_of_mem _ hk))]
    apply applyRow_inputs_other
    obtain ⟨w, rid, key⟩ := r
    cases w with
    | check => exact Or.inl rfl
    | set =>
      right
      intro hid
      exact h key (by simp [← hid])

theorem foldl_checks_other (coerce : String → JVal → String) (snap : JObj)
    (rows : List (Widget × String × String)) (d : Dom) (id : String)
    (h : ∀ key, (Widget.check, id, key) ∉ rows) :
    (rows.foldl (applyRow coerce snap) d).checks id = d.checks id := by
  induction rows generalizing d with
  | nil => rfl
  | cons r rs ih =>
    rw [List.foldl_cons, ih _ (fun key hk => h key (List.mem_cons_of_mem _ hk))]
    apply applyRow_checks_other
    obtain ⟨w, rid, key⟩ := r
    cases w with
    | set => exact Or.inl rfl
    | check =>
      right
      intro hid
      exact h key (by simp [← hid])

theorem foldl_inputs_set (coerce : String → JVal → String) (snap : JObj)
    (rows : List (Widget × String × String)) (d : Dom) (id key : String)
    (hnd : (rows.map fun row => row.2.1).Nodup) (hrow : (Widget.set, id, key) ∈ rows) :
    (rows.foldl (applyRow coerce snap) d).inputs id
      = setResult coerce snap id key (d.inputs id) := by
  induction rows generalizing d with
  | nil => simp at hrow
  | cons r rs ih =>
    rw [List.map_cons, List.nodup_cons] at hnd
    rw [List.foldl_cons]
    rcases List.mem_cons.mp hrow with heq | hmem
    · subst heq
      rw [foldl_inputs_other, applyRow_inputs_set]
      intro key' hk'
      exact hnd.1 (List.mem_map.mpr ⟨_, hk', rfl⟩)
    · rw [ih _ hnd.2 hmem, applyRow_inputs_other]
      right
      intro hid
      exact hnd.1 (List.mem_map.mpr ⟨_, hmem, hid.symm⟩)

theorem foldl_checks_check (coerce : String → JVal → String) (snap : JObj)
    (rows : List (Widget × String × String)) (d : Dom) (id key : String)
    (hnd : (rows.map fun row => row.2.1).Nodup) (hrow : (Widget.check, id, key) ∈ rows) :
    (rows.foldl (applyRow coerce snap) d).checks id
      = (d.checks id).map fun _ => (snap.get key).truthy := by
  induction rows generalizing d with
  | nil => simp at hrow
  | cons r rs ih =>
    rw [List.map_cons, List.nodup_cons] at hnd
    rw [List.foldl_cons]
    rcases List.mem_cons.mp hrow with heq | hmem
    · subst heq
      rw [foldl_checks_other, applyRow_checks_check]
      intro key' hk'
      exact hnd.1 (List.mem_map.mpr ⟨_, hk', rfl⟩)
    · rw [ih _ hnd.2 hmem, applyRow_checks_other]
      right
      intro hid
      exact hnd.1 (List.mem_map.mpr ⟨_, hmem, hid.symm⟩)

theorem populateSettingsUI_shows (coerce : String → JVal → String) (s : State) (snap : JObj) :
    ShowsSnapshot coerce s.dom (populateSettingsUI coerce s snap).dom snap :=
  ⟨fun id key h => foldl_inputs_set coerce snap populateRows s.dom id key
      populateRows_ids_nodup h,
    fun id key h => foldl_checks_check coerce snap populateRows s.dom id key
      populateRows_ids_nodup h,
    fun id h => foldl_inputs_other coerce snap populateRows s.dom id h,
    fun id h => foldl_checks_other coerce snap populateRows s.dom id h⟩

theorem loadSettings_ok (coerce : String → JVal → String) (s : State) (snap : JObj)
    (code : Nat) (hcode : code ≠ 401) :
    loadSettings coerce s (.http code (some snap)) =
      populateSettingsUI coerce
        { sendRequest s "/api/settings/" "GET" none with currentSettings := snap } snap := by
  simp [loadSettings, loadSettingsResume, receive, hcode]

theorem saveSettings_shows (coerce : String → JVal → String) (s : State) (snap : JObj)
    (code : Nat) (hcode : code ≠ 401) :
    ShowsSnapshot coerce s.dom
      (saveSettings coerce s (.http code (some { settings := some snap }))).dom snap := by
  simp only [saveSettings, apiCall, receive, if_neg hcode]
  unfold ShowsSnapshot
  exact populateSettingsUI_shows coerce _ snap

theorem saveSettings_currentSettings (coerce : String → JVal → String) (s : State)
    (snap : JObj) (code : Nat) (hcode : code ≠ 401) :
    (saveSettings coerce s (.http code (some { settings := some snap }))).currentSettings
      = snap.set "trading_mode" ((snap.get "trading_mode").or (.str "PAPER")) := by
  simp only [saveSettings, apiCall, receive, if_neg hcode]
  rfl

theorem secretFields_ids_not_populated :
    ∀ p ∈ secretFields, p.2 ∉ populateRows.map fun row => row.2.1 := by decide

theorem secretFields_not_populated :
    ∀ p ∈ secretFields, ∀ key, (Widget.set, p.2, key) ∉ populateRows := by
  intro p hp key hmem
  exact secretFields_ids_not_populated p hp (List.mem_map.mpr ⟨_, hmem, rfl⟩)

/-- C9 as stated fails: a secret typed into the API-key input, and `123` typed into
the initial-capital input, are still there after `loadSettings` has loaded a snapshot
(one whose `initial_capital` is `null`). -/
theorem loadSettings_keeps_unsaved_edits :
    unsavedEditsState.dom.inputs "s-api-key" = some "typed-secret" ∧
    (loadSettings sampleCoerce unsavedEditsState (.http 200 (some sampleSnapshot))).dom.inputs
      "s-api-key" = some "typed-secret" ∧
    (loadSettings sampleCoerce unsavedEditsState (.http 200 (some sampleSnapshot))).dom.inputs
      "s-capital" = some "123" ∧
    (loadSettings sampleCoerce unsavedEditsState (.http 200 (some sampleSnapshot))).dom.inputs
      "s-loss-limit" = some "2.5" := by
  refine ⟨by decide, by decide, by decide, by decide⟩

/-- C9, amended: after a successful `loadSettings`, and after a `saveSettings` whose
reply carries a snapshot, an input that `populateSettingsUI` sets holds the snapshot's
value when that value is neither `null` nor `undefined` and keeps its content
otherwise, a checkbox it sets holds the truthiness of the snapshot's value, the other
inputs (the seven secret ones among them) keep their content, and `currentSettings` is
the snapshot with its mode defaulted to `PAPER`. -/
theorem settings_fetch_shows_snapshot (coerce : String → JVal → String) (s : State)
    (snap : JObj) (code : Nat) (hcode : code ≠ 401) :
    ShowsSnapshot coerce s.dom (loadSettings coerce s (.http code (some snap))).dom snap ∧
    ShowsSnapshot coerce s.dom
      (saveSettings coerce s (.http code (some { settings := some snap }))).dom snap ∧
    (∀ p ∈ secretFields,
      (loadSettings coerce s (.http code (some snap))).dom.inputs p.2 = s.dom.inputs p.2 ∧
      (saveSettings coerce s (.http code (some { settings := some snap }))).dom.inputs p.2
        = s.dom.inputs p.2) ∧
    (loadSettings coerce s (.http code (some snap))).currentSettings
      = snap.set "trading_mode" ((snap.get "trading_mode").or (.str "PAPER")) ∧
    (saveSettings coerce s (.http code (some { settings := some snap }))).currentSettings
      = snap.set "trading_mode" ((snap.get "trading_mode").or (.str "PAPER")) := by
  have hl : ShowsSnapshot coerce s.dom
      (loadSettings coerce s (.http code (some snap))).dom snap := by
    rw [loadSettings_ok coerce s snap code hcode]
    exact populateSettingsUI_shows coerce _ snap
  have hs := saveSettings_shows coerce s snap code hcode
  refine ⟨hl, hs, ?_, ?_, ?_⟩
  · intro p hp
    exact ⟨hl.2.2.1 p.2 (secretFields_not_populated p hp),
      hs.2.2.1 p.2 (secretFields_not_populated p hp)⟩
  · rw [loadSettings_ok coerce s snap code hcode]
    rfl
  · exact saveSettings_currentSettings coerce s snap code hcode

theorem settings_fetch_shows_snapshot_witness :
    (loadSettings sampleCoerce unsavedEditsState (.http 200 (some sampleSnapshot))).dom.inputs
      "s-api-key" = unsavedEditsState.dom.inputs "s-api-key" ∧
    (loadSettings sampleCoerce unsavedEditsState
      (.http 200 (some sampleSnapshot))).currentSettings = sampleSnapshot :=
  ⟨((settings_fetch_shows_snapshot sampleCoerce unsavedEditsState sampleSnapshot 200
      (by decide)).2.2.1 ("mstock_api_key", "s-api-key") (by decide)).1,
    (settings_fetch_shows_snapshot sampleCoerce unsavedEditsState sampleSnapshot 200
      (by decide)).2.2.2.1⟩

end FnoSentinel
